import Mathlib

/-!
Verification of the SEO modules of the Portfolio-Updated repository
(sitemap generation, robots.txt generation, meta-tag generation,
JSON-LD structured data and environment-based configuration).

Strings are modelled as lists of characters (`List Char`); TypeScript
template-literal concatenation becomes list append, and `Array.join` /
`Array.map` become `List.intercalate` / `List.map`.
-/

set_option maxRecDepth 100000

/-- Character-list form of a string literal. -/
def lit (s : String) : List Char := s.data

/-- The apostrophe character (U+0027). -/
def aposC : Char := Char.ofNat 39

/-- Number of occurrences of `pat` as a contiguous substring of `s`: the
number of start positions of `s` at which `pat` matches. -/
def countSub (pat : List Char) : List Char → Nat
  | [] => 0
  | a :: t => (if pat <+: (a :: t) then 1 else 0) + countSub pat t

/-- Number of occurrences of the character `c` in `s`. -/
def countChar (c : Char) : List Char → Nat
  | [] => 0
  | a :: t => (if a = c then 1 else 0) + countChar c t

/-- No partial match of `pat` beginning inside `x` can extend past the right
end of `x`: wherever a truncated copy of `pat` matches a suffix of `x`, the
full pattern already fits inside `x`. -/
def noSpan (pat x : List Char) : Prop :=
  ∀ i, i < x.length → List.take (x.length - i) pat <+: List.drop i x →
    i + pat.length ≤ x.length

instance (pat x : List Char) : Decidable (noSpan pat x) := by
  unfold noSpan; infer_instance

theorem prefix_append_iff_of_length_le (pat u y : List Char)
    (h : pat.length ≤ u.length) : pat <+: u ++ y ↔ pat <+: u := by
  constructor
  · intro hp
    have h1 := List.prefix_iff_eq_take.mp hp
    rw [List.take_append_of_le_length h] at h1
    exact h1 ▸ List.take_prefix _ _
  · intro hp
    exact hp.trans (List.prefix_append u y)

theorem take_prefix_of_prefix {p q : List Char} (n : Nat) (h : p <+: q) :
    p.take n <+: q.take n := by
  obtain ⟨t, rfl⟩ := h
  rw [List.take_append_eq_append_take]
  exact List.prefix_append _ _

theorem noSpan_nil (pat : List Char) : noSpan pat [] := by
  intro i hi
  exact absurd hi (Nat.not_lt_zero i)

theorem noSpan_tail {pat : List Char} {a : Char} {x : List Char}
    (h : noSpan pat (a :: x)) : noSpan pat x := by
  intro i hi hp
  have h2 := h (i + 1) (by simp [List.length_cons]; omega)
    (by simpa [List.length_cons, Nat.succ_sub_succ] using hp)
  simp [List.length_cons] at h2
  omega

theorem countSub_append (pat : List Char) (x y : List Char) (h : noSpan pat x) :
    countSub pat (x ++ y) = countSub pat x + countSub pat y := by
  induction x with
  | nil => simp [countSub]
  | cons a x ih =>
    have hx : noSpan pat x := noSpan_tail h
    have hiff : (pat <+: a :: (x ++ y)) ↔ (pat <+: a :: x) := by
      by_cases hlen : pat.length ≤ (a :: x).length
      · exact prefix_append_iff_of_length_le pat (a :: x) y hlen
      · constructor
        · intro hp
          exfalso
          have h2 : pat.take (a :: x).length <+: ((a :: x) ++ y).take (a :: x).length :=
            take_prefix_of_prefix _ hp
          rw [List.take_append_of_le_length (Nat.le_refl _),
            List.take_of_length_le (Nat.le_refl _)] at h2
          have h3 := h 0 (by simp) (by simpa using h2)
          simp only [List.length_cons] at h3 hlen
          omega
        · intro hp
          exact absurd hp.length_le hlen
    calc countSub pat ((a :: x) ++ y)
        = (if pat <+: a :: (x ++ y) then 1 else 0) + countSub pat (x ++ y) := rfl
      _ = (if pat <+: a :: x then 1 else 0) + (countSub pat x + countSub pat y) := by
          rw [ih hx]; simp only [hiff]
      _ = countSub pat (a :: x) + countSub pat y := by
          simp [countSub]; omega

theorem countSub_eq_zero_of_head_not_mem {c : Char} {p x : List Char}
    (h : c ∉ x) : countSub (c :: p) x = 0 := by
  induction x with
  | nil => rfl
  | cons a t ih =>
    have hac : ¬(c :: p <+: a :: t) := by
      intro hp
      rw [List.cons_prefix_cons] at hp
      exact h (by simp [hp.1])
    have ht : c ∉ t := fun hm => h (List.mem_cons_of_mem _ hm)
    simp [countSub, hac, ih ht]

theorem noSpan_of_head_not_mem {c : Char} {p x : List Char}
    (h : c ∉ x) : noSpan (c :: p) x := by
  intro i hi hp
  exfalso
  cases hd : List.drop i x with
  | nil =>
    have := List.length_drop i x
    rw [hd] at this
    simp at this
    omega
  | cons b u =>
    rw [hd] at hp
    obtain ⟨m, hm⟩ : ∃ m, x.length - i = m + 1 := ⟨x.length - i - 1, by omega⟩
    rw [hm, List.take_succ_cons, List.cons_prefix_cons] at hp
    have hb : b ∈ x := List.mem_of_mem_drop (by rw [hd]; exact List.mem_cons_self _ _)
    exact h (hp.1 ▸ hb)

theorem noSpan_append {pat x y : List Char} (hx : noSpan pat x)
    (hy : noSpan pat y) : noSpan pat (x ++ y) := by
  intro i hi hp
  rw [List.length_append] at hi ⊢
  rw [List.length_append, List.drop_append_eq_append_drop] at hp
  by_cases hix : i < x.length
  · rw [Nat.sub_eq_zero_of_le (Nat.le_of_lt hix), List.drop_zero] at hp
    have h2 := take_prefix_of_prefix (x.length - i) hp
    have e1 : (List.take (x.length + y.length - i) pat).take (x.length - i) =
        List.take (x.length - i) pat := by
      rw [List.take_take]
      congr 1
      omega
    have e2 : (List.drop i x ++ y).take (x.length - i) = List.drop i x := by
      rw [List.take_append_eq_append_take, List.length_drop, Nat.sub_self,
        List.take_zero, List.append_nil]
      exact List.take_of_length_le (Nat.le_of_eq (List.length_drop i x))
    rw [e1, e2] at h2
    have h3 := hx i hix h2
    omega
  · rw [List.drop_eq_nil_of_le (by omega : x.length ≤ i), List.nil_append] at hp
    have he : x.length + y.length - i = y.length - (i - x.length) := by omega
    rw [he] at hp
    have h3 := hy (i - x.length) (by omega) hp
    omega

theorem noSpan_flatten {pat : List Char} :
    ∀ {L : List (List Char)}, (∀ x ∈ L, noSpan pat x) → noSpan pat L.flatten
  | [], _ => noSpan_nil pat
  | x :: L, h => by
    rw [List.flatten_cons]
    exact noSpan_append (h x (by simp))
      (noSpan_flatten fun z hz => h z (by simp [hz]))

theorem countSub_flatten (pat : List Char) :
    ∀ (L : List (List Char)), (∀ x ∈ L, noSpan pat x) →
      countSub pat L.flatten = (L.map (countSub pat)).sum
  | [], _ => by simp [countSub]
  | x :: L, h => by
    rw [List.flatten_cons, countSub_append pat x _ (h x (by simp)),
      countSub_flatten pat L fun z hz => h z (by simp [hz])]
    simp

theorem intercalate_cons₂ (sep x y : List Char) (zs : List (List Char)) :
    List.intercalate sep (x :: y :: zs) =
      x ++ sep ++ List.intercalate sep (y :: zs) := by
  simp [List.intercalate, List.intersperse]

theorem intercalate_single (sep x : List Char) :
    List.intercalate sep [x] = x := by
  simp [List.intercalate, List.intersperse]

theorem countSub_intercalate (pat sep : List Char) (hsep : noSpan pat sep) :
    ∀ (ts : List (List Char)), (∀ t ∈ ts, noSpan pat t) →
      countSub pat (List.intercalate sep ts) =
        (ts.map (countSub pat)).sum + (ts.length - 1) * countSub pat sep
  | [], _ => by simp [List.intercalate, countSub]
  | [t], _ => by simp [intercalate_single]
  | t :: t' :: r, h => by
    rw [intercalate_cons₂, List.append_assoc,
      countSub_append pat t _ (h t (by simp)),
      countSub_append pat sep _ hsep,
      countSub_intercalate pat sep hsep (t' :: r)
        (fun z hz => h z (List.mem_cons_of_mem _ hz))]
    simp [List.length_cons]
    ring

theorem noSpan_intercalate {pat sep : List Char} (hsep : noSpan pat sep) :
    ∀ {ts : List (List Char)}, (∀ t ∈ ts, noSpan pat t) →
      noSpan pat (List.intercalate sep ts)
  | [], _ => by simpa [List.intercalate] using noSpan_nil pat
  | [t], h => by simpa [intercalate_single] using h t (by simp)
  | t :: t' :: r, h => by
    rw [intercalate_cons₂, List.append_assoc]
    exact noSpan_append (h t (by simp))
      (noSpan_append hsep
        (noSpan_intercalate hsep (fun z hz => h z (List.mem_cons_of_mem _ hz))))

theorem not_prefix_append_of_take {pat u y : List Char}
    (h : ¬ pat.take u.length <+: u) : ¬ (pat <+: u ++ y) := by
  intro hp
  have h2 := take_prefix_of_prefix u.length hp
  rw [List.take_append_of_le_length (Nat.le_refl _), List.take_length] at h2
  exact h h2

theorem not_prefix_cons_of_head_ne {c a : Char} {pt u : List Char}
    (h : a ≠ c) : ¬ (c :: pt <+: a :: u) := fun hp =>
  h ((List.cons_prefix_cons.mp hp).1.symm)

theorem countSub_cons_append {c : Char} {pt : List Char} {pat : List Char}
    (hp : pat = c :: pt) (a : Char) (x' y : List Char) (hx : c ∉ x') :
    countSub pat (a :: (x' ++ y)) =
      (if pat <+: a :: (x' ++ y) then 1 else 0) + countSub pat y := by
  have h0 : countSub pat (x' ++ y) = countSub pat y := by
    rw [countSub_append pat x' y (hp ▸ noSpan_of_head_not_mem hx), hp,
      countSub_eq_zero_of_head_not_mem hx]
    omega
  show (if pat <+: a :: (x' ++ y) then 1 else 0) + countSub pat (x' ++ y) = _
  rw [h0]

/-- One global replacement of the single character `c` by the string `r`:
the shallow embedding of `String.prototype.replace` with a single-character
global regex such as the source's `/&/g`. -/
def replaceChar (c : Char) (r : List Char) : List Char → List Char
  | [] => []
  | a :: t => (if a = c then r else [a]) ++ replaceChar c r t

/-- The private helper `escapeXml` of `src/seo/sitemap.ts`: chained global
replacements of ampersand, angle brackets, double quote and apostrophe by
their XML entities, applied in exactly the source's order. -/
def escapeXml (str : List Char) : List Char :=
  replaceChar aposC (lit "&apos;")
    (replaceChar '"' (lit "&quot;")
      (replaceChar '>' (lit "&gt;")
        (replaceChar '<' (lit "&lt;")
          (replaceChar '&' (lit "&amp;") str))))

/-- Character-level description of the combined effect of the five chained
replacements performed by `escapeXml`. -/
def escXmlChar (c : Char) : List Char :=
  if c = '&' then lit "&amp;"
  else if c = '<' then lit "&lt;"
  else if c = '>' then lit "&gt;"
  else if c = '"' then lit "&quot;"
  else if c = aposC then lit "&apos;"
  else [c]

/-- Character-wise map of `escXmlChar` over a string. -/
def escMapXml : List Char → List Char
  | [] => []
  | a :: t => escXmlChar a ++ escMapXml t

theorem replaceChar_append (c : Char) (r : List Char) :
    ∀ x y, replaceChar c r (x ++ y) = replaceChar c r x ++ replaceChar c r y
  | [], _ => rfl
  | a :: t, y => by
    show (if a = c then r else [a]) ++ replaceChar c r (t ++ y) = _
    rw [replaceChar_append c r t y]
    show _ = (if a = c then r else [a]) ++ replaceChar c r t ++ _
    rw [List.append_assoc]

theorem replaceChar_cons (c : Char) (r : List Char) (a : Char) (t : List Char) :
    replaceChar c r (a :: t) = (if a = c then r else [a]) ++ replaceChar c r t := rfl

theorem escapeXml_cons (a : Char) (t : List Char) :
    escapeXml (a :: t) = escXmlChar a ++ escapeXml t := by
  unfold escapeXml
  rw [replaceChar_cons]
  by_cases h1 : a = '&'
  · subst h1
    rw [if_pos rfl, replaceChar_append, replaceChar_append, replaceChar_append,
      replaceChar_append]
    congr 1
  rw [if_neg h1]
  by_cases h2 : a = '<'
  · subst h2
    rw [replaceChar_append, replaceChar_append, replaceChar_append,
      replaceChar_append]
    congr 1
  by_cases h3 : a = '>'
  · subst h3
    rw [replaceChar_append, replaceChar_append, replaceChar_append,
      replaceChar_append]
    congr 1
  by_cases h4 : a = '"'
  · subst h4
    rw [replaceChar_append, replaceChar_append, replaceChar_append,
      replaceChar_append]
    congr 1
  by_cases h5 : a = aposC
  · subst h5
    rw [replaceChar_append, replaceChar_append, replaceChar_append,
      replaceChar_append]
    congr 1
  rw [replaceChar_append, replaceChar_append, replaceChar_append,
    replaceChar_append]
  congr 1
  simp only [escXmlChar, if_neg h1, if_neg h2, if_neg h3, if_neg h4, if_neg h5]
  simp [replaceChar, h1, h2, h3, h4, h5]

theorem escapeXml_eq_escMapXml : ∀ s, escapeXml s = escMapXml s
  | [] => rfl
  | a :: t => by
    rw [escapeXml_cons, escapeXml_eq_escMapXml t]
    rfl

theorem escXmlChar_shape (b : Char) :
    escXmlChar b = [b] ∨ ∃ tb, escXmlChar b = '&' :: tb ∧ ('&' : Char) ∉ tb := by
  by_cases h1 : b = '&'
  · subst h1; exact Or.inr ⟨lit "amp;", by decide, by decide⟩
  by_cases h2 : b = '<'
  · subst h2; exact Or.inr ⟨lit "lt;", by decide, by decide⟩
  by_cases h3 : b = '>'
  · subst h3; exact Or.inr ⟨lit "gt;", by decide, by decide⟩
  by_cases h4 : b = '"'
  · subst h4; exact Or.inr ⟨lit "quot;", by decide, by decide⟩
  by_cases h5 : b = aposC
  · subst h5; exact Or.inr ⟨lit "apos;", by decide, by decide⟩
  left
  simp [escXmlChar, h1, h2, h3, h4, h5]

theorem countSub_escXmlChar_step (ent pt : List Char) (hp : ent = '&' :: pt)
    (a : Char) (X : List Char) :
    countSub ent (escXmlChar a ++ X) =
      (if ent <+: escXmlChar a ++ X then 1 else 0) + countSub ent X := by
  rcases escXmlChar_shape a with h | ⟨tb, hb, htb⟩
  · rw [h]
    show countSub ent (a :: ([] ++ X)) = _
    rw [countSub_cons_append hp a [] X (by simp)]
    rfl
  · rw [hb, List.cons_append, countSub_cons_append hp '&' tb X htb,
      ← List.cons_append]

theorem countSub_escMap_gen (ent pt : List Char) (hp : ent = '&' :: pt) (c : Char)
    (htrue : ∀ X, ent <+: escXmlChar c ++ X)
    (hfalse : ∀ a, a ≠ c → ∀ X, ¬ ent <+: escXmlChar a ++ X) :
    ∀ s, countSub ent (escMapXml s) = countChar c s
  | [] => by rw [hp]; rfl
  | a :: t => by
    show countSub ent (escXmlChar a ++ escMapXml t) =
      (if a = c then 1 else 0) + countChar c t
    rw [countSub_escXmlChar_step ent pt hp a (escMapXml t),
      countSub_escMap_gen ent pt hp c htrue hfalse t]
    by_cases hac : a = c
    · subst hac
      rw [if_pos (htrue (escMapXml t)), if_pos rfl]
    · rw [if_neg (hfalse a hac (escMapXml t)), if_neg hac]

theorem countSub_amp_escMap (s : List Char) :
    countSub (lit "&amp;") (escMapXml s) = countChar '&' s := by
  refine countSub_escMap_gen (lit "&amp;") (lit "amp;") (by decide) '&'
    (fun X => ?_) (fun a hne X => ?_) s
  · rw [show escXmlChar '&' = lit "&amp;" from by decide]
    exact List.prefix_append _ _
  · by_cases h1 : a = '&'
    · exact absurd h1 hne
    by_cases h2 : a = '<'
    · subst h2; exact not_prefix_append_of_take (by decide)
    by_cases h3 : a = '>'
    · subst h3; exact not_prefix_append_of_take (by decide)
    by_cases h4 : a = '"'
    · subst h4; exact not_prefix_append_of_take (by decide)
    by_cases h5 : a = aposC
    · subst h5; exact not_prefix_append_of_take (by decide)
    rw [show escXmlChar a = [a] from by simp [escXmlChar, h1, h2, h3, h4, h5],
      List.singleton_append, show lit "&amp;" = '&' :: lit "amp;" from rfl]
    exact not_prefix_cons_of_head_ne h1

theorem countSub_lt_escMap (s : List Char) :
    countSub (lit "&lt;") (escMapXml s) = countChar '<' s := by
  refine countSub_escMap_gen (lit "&lt;") (lit "lt;") (by decide) '<'
    (fun X => ?_) (fun a hne X => ?_) s
  · rw [show escXmlChar '<' = lit "&lt;" from by decide]
    exact List.prefix_append _ _
  · by_cases h1 : a = '&'
    · subst h1; exact not_prefix_append_of_take (by decide)
    by_cases h2 : a = '<'
    · exact absurd h2 hne
    by_cases h3 : a = '>'
    · subst h3; exact not_prefix_append_of_take (by decide)
    by_cases h4 : a = '"'
    · subst h4; exact not_prefix_append_of_take (by decide)
    by_cases h5 : a = aposC
    · subst h5; exact not_prefix_append_of_take (by decide)
    rw [show escXmlChar a = [a] from by simp [escXmlChar, h1, h2, h3, h4, h5],
      List.singleton_append, show lit "&lt;" = '&' :: lit "lt;" from rfl]
    exact not_prefix_cons_of_head_ne h1

theorem countSub_gt_escMap (s : List Char) :
    countSub (lit "&gt;") (escMapXml s) = countChar '>' s := by
  refine countSub_escMap_gen (lit "&gt;") (lit "gt;") (by decide) '>'
    (fun X => ?_) (fun a hne X => ?_) s
  · rw [show escXmlChar '>' = lit "&gt;" from by decide]
    exact List.prefix_append _ _
  · by_cases h1 : a = '&'
    · subst h1; exact not_prefix_append_of_take (by decide)
    by_cases h2 : a = '<'
    · subst h2; exact not_prefix_append_of_take (by decide)
    by_cases h3 : a = '>'
    · exact absurd h3 hne
    by_cases h4 : a = '"'
    · subst h4; exact not_prefix_append_of_take (by decide)
    by_cases h5 : a = aposC
    · subst h5; exact not_prefix_append_of_take (by decide)
    rw [show escXmlChar a = [a] from by simp [escXmlChar, h1, h2, h3, h4, h5],
      List.singleton_append, show lit "&gt;" = '&' :: lit "gt;" from rfl]
    exact not_prefix_cons_of_head_ne h1

theorem countSub_quot_escMap (s : List Char) :
    countSub (lit "&quot;") (escMapXml s) = countChar '"' s := by
  refine countSub_escMap_gen (lit "&quot;") (lit "quot;") (by decide) '"'
    (fun X => ?_) (fun a hne X => ?_) s
  · rw [show escXmlChar '"' = lit "&quot;" from by decide]
    exact List.prefix_append _ _
  · by_cases h1 : a = '&'
    · subst h1; exact not_prefix_append_of_take (by decide)
    by_cases h2 : a = '<'
    · subst h2; exact not_prefix_append_of_take (by decide)
    by_cases h3 : a = '>'
    · subst h3; exact not_prefix_append_of_take (by decide)
    by_cases h4 : a = '"'
    · exact absurd h4 hne
    by_cases h5 : a = aposC
    · subst h5; exact not_prefix_append_of_take (by decide)
    rw [show escXmlChar a = [a] from by simp [escXmlChar, h1, h2, h3, h4, h5],
      List.singleton_append, show lit "&quot;" = '&' :: lit "quot;" from rfl]
    exact not_prefix_cons_of_head_ne h1

theorem countSub_apos_escMap (s : List Char) :
    countSub (lit "&apos;") (escMapXml s) = countChar aposC s := by
  refine countSub_escMap_gen (lit "&apos;") (lit "apos;") (by decide) aposC
    (fun X => ?_) (fun a hne X => ?_) s
  · rw [show escXmlChar aposC = lit "&apos;" from by decide]
    exact List.prefix_append _ _
  · by_cases h1 : a = '&'
    · subst h1; exact not_prefix_append_of_take (by decide)
    by_cases h2 : a = '<'
    · subst h2; exact not_prefix_append_of_take (by decide)
    by_cases h3 : a = '>'
    · subst h3; exact not_prefix_append_of_take (by decide)
    by_cases h4 : a = '"'
    · subst h4; exact not_prefix_append_of_take (by decide)
    by_cases h5 : a = aposC
    · exact absurd h5 hne
    rw [show escXmlChar a = [a] from by simp [escXmlChar, h1, h2, h3, h4, h5],
      List.singleton_append, show lit "&apos;" = '&' :: lit "apos;" from rfl]
    exact not_prefix_cons_of_head_ne h1

theorem plain_ne_amp {c : Char} (h : escXmlChar c = [c]) : c ≠ '&' := by
  intro hc
  subst hc
  exact absurd h (by decide)

theorem plain_prefix_escMap :
    ∀ (w : List Char), (∀ c ∈ w, escXmlChar c = [c]) →
      ∀ t, (w <+: escMapXml t ↔ w <+: t)
  | [], _, t => by simp
  | c :: w', hw, t => by
    cases t with
    | nil =>
      show (c :: w' <+: []) ↔ (c :: w' <+: [])
      exact Iff.rfl
    | cons b t' =>
      show (c :: w' <+: escXmlChar b ++ escMapXml t') ↔ _
      rcases escXmlChar_shape b with hb | ⟨tb, hb, _⟩
      · rw [hb, List.singleton_append, List.cons_prefix_cons, List.cons_prefix_cons,
          plain_prefix_escMap w' (fun z hz => hw z (List.mem_cons_of_mem _ hz)) t']
      · have hc : escXmlChar c = [c] := hw c (by simp)
        have hcb : c ≠ b := by
          intro he
          subst he
          rw [hc] at hb
          have : c = '&' := by
            have := List.head_eq_of_cons_eq hb.symm
            exact this.symm
          exact plain_ne_amp hc this
        constructor
        · intro hp
          rw [hb, List.cons_append] at hp
          exact absurd hp (not_prefix_cons_of_head_ne
            (fun he => plain_ne_amp hc he.symm))
        · intro hp
          exact absurd hp (not_prefix_cons_of_head_ne (fun he => hcb he.symm))

theorem countSub_ampamp_escMap :
    ∀ s, countSub (lit "&amp;amp;") (escMapXml s) = countSub (lit "&amp;") s
  | [] => rfl
  | a :: t => by
    show countSub (lit "&amp;amp;") (escXmlChar a ++ escMapXml t) =
      (if lit "&amp;" <+: a :: t then 1 else 0) + countSub (lit "&amp;") t
    rw [countSub_escXmlChar_step (lit "&amp;amp;") (lit "amp;amp;") rfl a
      (escMapXml t), countSub_ampamp_escMap t]
    have hiff : (lit "&amp;amp;" <+: escXmlChar a ++ escMapXml t) ↔
        (lit "&amp;" <+: a :: t) := by
      by_cases h1 : a = '&'
      · subst h1
        rw [show escXmlChar '&' = lit "&amp;" from by decide,
          show lit "&amp;amp;" = lit "&amp;" ++ lit "amp;" from rfl,
          List.prefix_append_right_inj,
          plain_prefix_escMap (lit "amp;") (by decide) t,
          show lit "&amp;" = '&' :: lit "amp;" from rfl, List.cons_prefix_cons]
        simp
      by_cases h2 : a = '<'
      · subst h2
        rw [show escXmlChar '<' = lit "&lt;" from by decide]
        exact iff_of_false (not_prefix_append_of_take (by decide))
          (not_prefix_cons_of_head_ne (by decide))
      by_cases h3 : a = '>'
      · subst h3
        rw [show escXmlChar '>' = lit "&gt;" from by decide]
        exact iff_of_false (not_prefix_append_of_take (by decide))
          (not_prefix_cons_of_head_ne (by decide))
      by_cases h4 : a = '"'
      · subst h4
        rw [show escXmlChar '"' = lit "&quot;" from by decide]
        exact iff_of_false (not_prefix_append_of_take (by decide))
          (not_prefix_cons_of_head_ne (by decide))
      by_cases h5 : a = aposC
      · subst h5
        rw [show escXmlChar aposC = lit "&apos;" from by decide]
        exact iff_of_false (not_prefix_append_of_take (by decide))
          (not_prefix_cons_of_head_ne (by decide))
      rw [show escXmlChar a = [a] from by simp [escXmlChar, h1, h2, h3, h4, h5],
        List.singleton_append]
      exact iff_of_false
        (not_prefix_cons_of_head_ne h1)
        (not_prefix_cons_of_head_ne h1)
    simp only [hiff]

/-- The change-frequency values allowed by the `SitemapURL` type in
`src/seo/types.ts`. -/
inductive Changefreq where
  | always | hourly | daily | weekly | monthly | yearly | never

/-- The character sequence produced when a change-frequency value is
interpolated into the sitemap template literal. -/
def Changefreq.render : Changefreq → List Char
  | .always => lit "always"
  | .hourly => lit "hourly"
  | .daily => lit "daily"
  | .weekly => lit "weekly"
  | .monthly => lit "monthly"
  | .yearly => lit "yearly"
  | .never => lit "never"

/-- A sitemap entry (`SitemapURL` in `src/seo/types.ts`). `loc` and
`lastmod` are strings; `priority` is a number in the source and is carried
here as the character sequence it produces when interpolated into the
template literal (a JavaScript number renders using only digits, sign,
dot and exponent characters). -/
structure SitemapURL where
  loc : List Char
  lastmod : List Char
  changefreq : Changefreq
  priority : List Char

/-- One `  <url> ... </url>` block of the sitemap, the body of the
`urls.map` callback in `generateSitemap` (`src/seo/sitemap.ts`). -/
def urlEntry (url : SitemapURL) : List Char :=
  lit "  <url>\n    <loc>" ++ escapeXml url.loc ++
    lit "</loc>\n    <lastmod>" ++ url.lastmod ++
    lit "</lastmod>\n    <changefreq>" ++ url.changefreq.render ++
    lit "</changefreq>\n    <priority>" ++ url.priority ++
    lit "</priority>\n  </url>"

/-- The fixed text preceding the url entries in the sitemap template. -/
def sitemapHeader : List Char :=
  lit "<?xml version=\"1.0\" encoding=\"UTF-8\"?>\n<urlset xmlns=\"http://www.sitemaps.org/schemas/sitemap/0.9\">\n"

/-- The fixed text following the url entries in the sitemap template. -/
def sitemapFooter : List Char := lit "\n</urlset>"

/-- Embedding of `generateSitemap` from `src/seo/sitemap.ts`: maps `urlEntry` over the
input array, joins the blocks with a newline and wraps them in the fixed
XML declaration and `urlset` element. -/
def generateSitemap (urls : List SitemapURL) : List Char :=
  sitemapHeader ++ List.intercalate (lit "\n") (urls.map urlEntry) ++ sitemapFooter

/-- The entry template split at its interpolation points. -/
def urlEntrySegs (url : SitemapURL) : List (List Char) :=
  [lit "  <url>\n    <loc>", escapeXml url.loc,
   lit "</loc>\n    <lastmod>", url.lastmod,
   lit "</lastmod>\n    <changefreq>", url.changefreq.render,
   lit "</changefreq>\n    <priority>", url.priority,
   lit "</priority>\n  </url>"]

theorem urlEntry_eq_flatten (url : SitemapURL) :
    urlEntry url = (urlEntrySegs url).flatten := by
  simp [urlEntry, urlEntrySegs]

/-- The interpolated data of a sitemap entry contains no `<` character —
true of every ISO-8601 `lastmod` date and of every numeric priority. -/
def sitemapSafe (u : SitemapURL) : Prop :=
  ('<' : Char) ∉ u.lastmod ∧ ('<' : Char) ∉ u.priority

instance (u : SitemapURL) : Decidable (sitemapSafe u) := by
  unfold sitemapSafe; infer_instance

theorem lt_not_mem_escXmlChar (a : Char) : ('<' : Char) ∉ escXmlChar a := by
  by_cases h1 : a = '&'
  · subst h1; decide
  by_cases h2 : a = '<'
  · subst h2; decide
  by_cases h3 : a = '>'
  · subst h3; decide
  by_cases h4 : a = '"'
  · subst h4; decide
  by_cases h5 : a = aposC
  · subst h5; decide
  rw [show escXmlChar a = [a] from by simp [escXmlChar, h1, h2, h3, h4, h5]]
  simp
  exact fun he => h2 he.symm

theorem lt_not_mem_escapeXml (s : List Char) : ('<' : Char) ∉ escapeXml s := by
  rw [escapeXml_eq_escMapXml]
  induction s with
  | nil => simp [escMapXml]
  | cons a t ih =>
    show ('<' : Char) ∉ escXmlChar a ++ escMapXml t
    rw [List.mem_append]
    rintro (h | h)
    · exact lt_not_mem_escXmlChar a h
    · exact ih h

theorem lt_not_mem_render (cf : Changefreq) : ('<' : Char) ∉ cf.render := by
  cases cf <;> decide

theorem sum_map_const_of {α : Type} (l : List α) (f : α → Nat) (k : Nat)
    (h : ∀ x ∈ l, f x = k) : (l.map f).sum = l.length * k := by
  induction l with
  | nil => simp
  | cons a t ih =>
    rw [List.map_cons, List.sum_cons, h a (by simp),
      ih (fun x hx => h x (List.mem_cons_of_mem _ hx)), List.length_cons]
    ring

theorem noSpan_urlEntry (pat pt : List Char) (hp : pat = '<' :: pt)
    (h1 : noSpan pat (lit "  <url>\n    <loc>"))
    (h2 : noSpan pat (lit "</loc>\n    <lastmod>"))
    (h3 : noSpan pat (lit "</lastmod>\n    <changefreq>"))
    (h4 : noSpan pat (lit "</changefreq>\n    <priority>"))
    (h5 : noSpan pat (lit "</priority>\n  </url>"))
    (u : SitemapURL) (hu : sitemapSafe u) : noSpan pat (urlEntry u) := by
  rw [urlEntry_eq_flatten]
  refine noSpan_flatten ?_
  intro x hx
  simp only [urlEntrySegs, List.mem_cons, List.not_mem_nil, or_false] at hx
  rcases hx with h | h | h | h | h | h | h | h | h <;> subst h
  · exact h1
  · exact hp ▸ noSpan_of_head_not_mem (lt_not_mem_escapeXml u.loc)
  · exact h2
  · exact hp ▸ noSpan_of_head_not_mem hu.1
  · exact h3
  · exact hp ▸ noSpan_of_head_not_mem (lt_not_mem_render u.changefreq)
  · exact h4
  · exact hp ▸ noSpan_of_head_not_mem hu.2
  · exact h5

theorem countSub_urlEntry (pat pt : List Char) (hp : pat = '<' :: pt)
    (h1 : noSpan pat (lit "  <url>\n    <loc>"))
    (h2 : noSpan pat (lit "</loc>\n    <lastmod>"))
    (h3 : noSpan pat (lit "</lastmod>\n    <changefreq>"))
    (h4 : noSpan pat (lit "</changefreq>\n    <priority>"))
    (h5 : noSpan pat (lit "</priority>\n  </url>"))
    (u : SitemapURL) (hu : sitemapSafe u) :
    countSub pat (urlEntry u) =
      countSub pat (lit "  <url>\n    <loc>") +
      countSub pat (lit "</loc>\n    <lastmod>") +
      countSub pat (lit "</lastmod>\n    <changefreq>") +
      countSub pat (lit "</changefreq>\n    <priority>") +
      countSub pat (lit "</priority>\n  </url>") := by
  rw [urlEntry_eq_flatten, countSub_flatten pat _ ?_]
  · simp only [urlEntrySegs, List.map_cons, List.map_nil, List.sum_cons,
      List.sum_nil]
    rw [hp, countSub_eq_zero_of_head_not_mem (lt_not_mem_escapeXml u.loc),
      countSub_eq_zero_of_head_not_mem hu.1,
      countSub_eq_zero_of_head_not_mem (lt_not_mem_render u.changefreq),
      countSub_eq_zero_of_head_not_mem hu.2, ← hp]
    ring
  · intro x hx
    simp only [urlEntrySegs, List.mem_cons, List.not_mem_nil, or_false] at hx
    rcases hx with h | h | h | h | h | h | h | h | h <;> subst h
    · exact h1
    · exact hp ▸ noSpan_of_head_not_mem (lt_not_mem_escapeXml u.loc)
    · exact h2
    · exact hp ▸ noSpan_of_head_not_mem hu.1
    · exact h3
    · exact hp ▸ noSpan_of_head_not_mem (lt_not_mem_render u.changefreq)
    · exact h4
    · exact hp ▸ noSpan_of_head_not_mem hu.2
    · exact h5

theorem countSub_generateSitemap (pat pt : List Char) (hp : pat = '<' :: pt)
    (hhdr : noSpan pat sitemapHeader)
    (h1 : noSpan pat (lit "  <url>\n    <loc>"))
    (h2 : noSpan pat (lit "</loc>\n    <lastmod>"))
    (h3 : noSpan pat (lit "</lastmod>\n    <changefreq>"))
    (h4 : noSpan pat (lit "</changefreq>\n    <priority>"))
    (h5 : noSpan pat (lit "</priority>\n  </url>"))
    (urls : List SitemapURL) (hu : ∀ u ∈ urls, sitemapSafe u) :
    countSub pat (generateSitemap urls) =
      countSub pat sitemapHeader +
      urls.length *
        (countSub pat (lit "  <url>\n    <loc>") +
         countSub pat (lit "</loc>\n    <lastmod>") +
         countSub pat (lit "</lastmod>\n    <changefreq>") +
         countSub pat (lit "</changefreq>\n    <priority>") +
         countSub pat (lit "</priority>\n  </url>")) +
      countSub pat sitemapFooter := by
  have hnl : noSpan pat (lit "\n") :=
    hp ▸ noSpan_of_head_not_mem (by decide)
  have hnl0 : countSub pat (lit "\n") = 0 := by
    rw [hp]
    exact countSub_eq_zero_of_head_not_mem (by decide)
  have hentries : ∀ t ∈ urls.map urlEntry, noSpan pat t := by
    intro t ht
    rw [List.mem_map] at ht
    obtain ⟨u, hu2, rfl⟩ := ht
    exact noSpan_urlEntry pat pt hp h1 h2 h3 h4 h5 u (hu u hu2)
  have hk : ∀ t ∈ urls.map urlEntry, countSub pat t =
      countSub pat (lit "  <url>\n    <loc>") +
      countSub pat (lit "</loc>\n    <lastmod>") +
      countSub pat (lit "</lastmod>\n    <changefreq>") +
      countSub pat (lit "</changefreq>\n    <priority>") +
      countSub pat (lit "</priority>\n  </url>") := by
    intro t ht
    rw [List.mem_map] at ht
    obtain ⟨u, hu2, rfl⟩ := ht
    exact countSub_urlEntry pat pt hp h1 h2 h3 h4 h5 u (hu u hu2)
  unfold generateSitemap
  rw [List.append_assoc,
    countSub_append pat sitemapHeader _ hhdr,
    countSub_append pat _ sitemapFooter (noSpan_intercalate hnl hentries),
    countSub_intercalate pat _ hnl _ hentries,
    hnl0, Nat.mul_zero, Nat.add_zero,
    sum_map_const_of (urls.map urlEntry) (countSub pat) _ hk,
    List.length_map]
  ring

theorem count_url_open_generateSitemap (urls : List SitemapURL)
    (hu : ∀ u ∈ urls, sitemapSafe u) :
    countSub (lit "<url>") (generateSitemap urls) = urls.length := by
  rw [countSub_generateSitemap (lit "<url>") (lit "url>") rfl (by decide) (by decide)
    (by decide) (by decide) (by decide) (by decide) urls hu,
    show countSub (lit "<url>") sitemapHeader = 0 from by decide,
    show countSub (lit "<url>") (lit "  <url>\n    <loc>") = 1 from by decide,
    show countSub (lit "<url>") (lit "</loc>\n    <lastmod>") = 0 from by decide,
    show countSub (lit "<url>") (lit "</lastmod>\n    <changefreq>") = 0 from by decide,
    show countSub (lit "<url>") (lit "</changefreq>\n    <priority>") = 0 from by decide,
    show countSub (lit "<url>") (lit "</priority>\n  </url>") = 0 from by decide,
    show countSub (lit "<url>") sitemapFooter = 0 from by decide]
  ring

theorem count_loc_generateSitemap (urls : List SitemapURL)
    (hu : ∀ u ∈ urls, sitemapSafe u) :
    countSub (lit "<loc>") (generateSitemap urls) = urls.length := by
  rw [countSub_generateSitemap (lit "<loc>") (lit "loc>") rfl (by decide) (by decide)
    (by decide) (by decide) (by decide) (by decide) urls hu,
    show countSub (lit "<loc>") sitemapHeader = 0 from by decide,
    show countSub (lit "<loc>") (lit "  <url>\n    <loc>") = 1 from by decide,
    show countSub (lit "<loc>") (lit "</loc>\n    <lastmod>") = 0 from by decide,
    show countSub (lit "<loc>") (lit "</lastmod>\n    <changefreq>") = 0 from by decide,
    show countSub (lit "<loc>") (lit "</changefreq>\n    <priority>") = 0 from by decide,
    show countSub (lit "<loc>") (lit "</priority>\n  </url>") = 0 from by decide,
    show countSub (lit "<loc>") sitemapFooter = 0 from by decide]
  ring

theorem count_lastmod_generateSitemap (urls : List SitemapURL)
    (hu : ∀ u ∈ urls, sitemapSafe u) :
    countSub (lit "<lastmod>") (generateSitemap urls) = urls.length := by
  rw [countSub_generateSitemap (lit "<lastmod>") (lit "lastmod>") rfl (by decide) (by decide)
    (by decide) (by decide) (by decide) (by decide) urls hu,
    show countSub (lit "<lastmod>") sitemapHeader = 0 from by decide,
    show countSub (lit "<lastmod>") (lit "  <url>\n    <loc>") = 0 from by decide,
    show countSub (lit "<lastmod>") (lit "</loc>\n    <lastmod>") = 1 from by decide,
    show countSub (lit "<lastmod>") (lit "</lastmod>\n    <changefreq>") = 0 from by decide,
    show countSub (lit "<lastmod>") (lit "</changefreq>\n    <priority>") = 0 from by decide,
    show countSub (lit "<lastmod>") (lit "</priority>\n  </url>") = 0 from by decide,
    show countSub (lit "<lastmod>") sitemapFooter = 0 from by decide]
  ring

theorem count_changefreq_generateSitemap (urls : List SitemapURL)
    (hu : ∀ u ∈ urls, sitemapSafe u) :
    countSub (lit "<changefreq>") (generateSitemap urls) = urls.length := by
  rw [countSub_generateSitemap (lit "<changefreq>") (lit "changefreq>") rfl (by decide) (by decide)
    (by decide) (by decide) (by decide) (by decide) urls hu,
    show countSub (lit "<changefreq>") sitemapHeader = 0 from by decide,
    show countSub (lit "<changefreq>") (lit "  <url>\n    <loc>") = 0 from by decide,
    show countSub (lit "<changefreq>") (lit "</loc>\n    <lastmod>") = 0 from by decide,
    show countSub (lit "<changefreq>") (lit "</lastmod>\n    <changefreq>") = 1 from by decide,
    show countSub (lit "<changefreq>") (lit "</changefreq>\n    <priority>") = 0 from by decide,
    show countSub (lit "<changefreq>") (lit "</priority>\n  </url>") = 0 from by decide,
    show countSub (lit "<changefreq>") sitemapFooter = 0 from by decide]
  ring

theorem count_priority_generateSitemap (urls : List SitemapURL)
    (hu : ∀ u ∈ urls, sitemapSafe u) :
    countSub (lit "<priority>") (generateSitemap urls) = urls.length := by
  rw [countSub_generateSitemap (lit "<priority>") (lit "priority>") rfl (by decide) (by decide)
    (by decide) (by decide) (by decide) (by decide) urls hu,
    show countSub (lit "<priority>") sitemapHeader = 0 from by decide,
    show countSub (lit "<priority>") (lit "  <url>\n    <loc>") = 0 from by decide,
    show countSub (lit "<priority>") (lit "</loc>\n    <lastmod>") = 0 from by decide,
    show countSub (lit "<priority>") (lit "</lastmod>\n    <changefreq>") = 0 from by decide,
    show countSub (lit "<priority>") (lit "</changefreq>\n    <priority>") = 1 from by decide,
    show countSub (lit "<priority>") (lit "</priority>\n  </url>") = 0 from by decide,
    show countSub (lit "<priority>") sitemapFooter = 0 from by decide]
  ring

theorem count_url_close_generateSitemap (urls : List SitemapURL)
    (hu : ∀ u ∈ urls, sitemapSafe u) :
    countSub (lit "</url>") (generateSitemap urls) = urls.length := by
  rw [countSub_generateSitemap (lit "</url>") (lit "/url>") rfl (by decide) (by decide)
    (by decide) (by decide) (by decide) (by decide) urls hu,
    show countSub (lit "</url>") sitemapHeader = 0 from by decide,
    show countSub (lit "</url>") (lit "  <url>\n    <loc>") = 0 from by decide,
    show countSub (lit "</url>") (lit "</loc>\n    <lastmod>") = 0 from by decide,
    show countSub (lit "</url>") (lit "</lastmod>\n    <changefreq>") = 0 from by decide,
    show countSub (lit "</url>") (lit "</changefreq>\n    <priority>") = 0 from by decide,
    show countSub (lit "</url>") (lit "</priority>\n  </url>") = 1 from by decide,
    show countSub (lit "</url>") sitemapFooter = 0 from by decide]
  ring

theorem count_urlset_open_generateSitemap (urls : List SitemapURL)
    (hu : ∀ u ∈ urls, sitemapSafe u) :
    countSub (lit "<urlset") (generateSitemap urls) = 1 := by
  rw [countSub_generateSitemap (lit "<urlset") (lit "urlset") rfl (by decide)
    (by decide) (by decide) (by decide) (by decide) (by decide) urls hu,
    show countSub (lit "<urlset") sitemapHeader = 1 from by decide,
    show countSub (lit "<urlset") (lit "  <url>\n    <loc>") = 0 from by decide,
    show countSub (lit "<urlset") (lit "</loc>\n    <lastmod>") = 0 from by decide,
    show countSub (lit "<urlset") (lit "</lastmod>\n    <changefreq>") = 0 from by decide,
    show countSub (lit "<urlset") (lit "</changefreq>\n    <priority>") = 0 from by decide,
    show countSub (lit "<urlset") (lit "</priority>\n  </url>") = 0 from by decide,
    show countSub (lit "<urlset") sitemapFooter = 0 from by decide]
  ring

theorem count_urlset_close_generateSitemap (urls : List SitemapURL)
    (hu : ∀ u ∈ urls, sitemapSafe u) :
    countSub (lit "</urlset>") (generateSitemap urls) = 1 := by
  rw [countSub_generateSitemap (lit "</urlset>") (lit "/urlset>") rfl (by decide)
    (by decide) (by decide) (by decide) (by decide) (by decide) urls hu,
    show countSub (lit "</urlset>") sitemapHeader = 0 from by decide,
    show countSub (lit "</urlset>") (lit "  <url>\n    <loc>") = 0 from by decide,
    show countSub (lit "</urlset>") (lit "</loc>\n    <lastmod>") = 0 from by decide,
    show countSub (lit "</urlset>") (lit "</lastmod>\n    <changefreq>") = 0 from by decide,
    show countSub (lit "</urlset>") (lit "</changefreq>\n    <priority>") = 0 from by decide,
    show countSub (lit "</urlset>") (lit "</priority>\n  </url>") = 0 from by decide,
    show countSub (lit "</urlset>") sitemapFooter = 1 from by decide]
  ring

theorem xmlDecl_isPre_generateSitemap (urls : List SitemapURL) :
    lit "<?xml version=\"1.0\" encoding=\"UTF-8\"?>\n" <+: generateSitemap urls := by
  unfold generateSitemap
  rw [List.append_assoc]
  exact (show lit "<?xml version=\"1.0\" encoding=\"UTF-8\"?>\n" <+: sitemapHeader
    from by decide).trans (List.prefix_append _ _)

theorem noSpan_urlTag_entry (u : SitemapURL) (hu : sitemapSafe u) :
    noSpan (lit "<url>") (urlEntry u) :=
  noSpan_urlEntry (lit "<url>") (lit "url>") rfl (by decide) (by decide)
    (by decide) (by decide) (by decide) u hu

theorem count_urlTag_entry (u : SitemapURL) (hu : sitemapSafe u) :
    countSub (lit "<url>") (urlEntry u) = 1 := by
  rw [countSub_urlEntry (lit "<url>") (lit "url>") rfl (by decide) (by decide)
    (by decide) (by decide) (by decide) u hu,
    show countSub (lit "<url>") (lit "  <url>\n    <loc>") = 1 from by decide,
    show countSub (lit "<url>") (lit "</loc>\n    <lastmod>") = 0 from by decide,
    show countSub (lit "<url>") (lit "</lastmod>\n    <changefreq>") = 0 from by decide,
    show countSub (lit "<url>") (lit "</changefreq>\n    <priority>") = 0 from by decide,
    show countSub (lit "<url>") (lit "</priority>\n  </url>") = 0 from by decide]

theorem mid_decomp :
    ∀ (urls : List SitemapURL) (i : Nat) (h : i < urls.length),
      (∀ u ∈ urls, sitemapSafe u) →
      ∃ pre post, List.intercalate (lit "\n") (urls.map urlEntry) =
        pre ++ urlEntry (urls.get ⟨i, h⟩) ++ post ∧
        countSub (lit "<url>") pre = i
  | [], i, h, _ => absurd h (by simp)
  | u :: us, 0, _, _ => by
    cases us with
    | nil =>
      refine ⟨[], [], ?_, rfl⟩
      simp [intercalate_single]
    | cons u' us' =>
      refine ⟨[], lit "\n" ++ List.intercalate (lit "\n") ((u' :: us').map urlEntry), ?_, rfl⟩
      rw [List.map_cons, List.map_cons, intercalate_cons₂]
      simp [List.append_assoc]
  | u :: us, i + 1, h, hu => by
    cases us with
    | nil => exact absurd h (by simp)
    | cons u' us' =>
      have h2 : i < (u' :: us').length := by
        simp only [List.length_cons] at h ⊢
        omega
      obtain ⟨pre, post, he, hc⟩ := mid_decomp (u' :: us') i h2
        (fun z hz => hu z (List.mem_cons_of_mem _ hz))
      refine ⟨urlEntry u ++ (lit "\n" ++ pre), post, ?_, ?_⟩
      · rw [List.map_cons, List.map_cons, intercalate_cons₂, ← List.map_cons, he]
        simp [List.append_assoc]
      · rw [countSub_append _ _ _ (noSpan_urlTag_entry u (hu u (by simp))),
          countSub_append _ _ _
            (show noSpan (lit "<url>") (lit "\n") from by decide),
          count_urlTag_entry u (hu u (by simp)),
          show countSub (lit "<url>") (lit "\n") = 0 from by decide, hc]
        omega

theorem sitemap_nth_block (urls : List SitemapURL)
    (hu : ∀ u ∈ urls, sitemapSafe u) (i : Nat) (h : i < urls.length) :
    ∃ pre post, generateSitemap urls =
      pre ++ urlEntry (urls.get ⟨i, h⟩) ++ post ∧
      countSub (lit "<url>") pre = i := by
  obtain ⟨pre, post, he, hc⟩ := mid_decomp urls i h hu
  refine ⟨sitemapHeader ++ pre, post ++ sitemapFooter, ?_, ?_⟩
  · unfold generateSitemap
    rw [he]
    simp [List.append_assoc]
  · rw [countSub_append _ _ _ (show noSpan (lit "<url>") sitemapHeader from by decide),
      show countSub (lit "<url>") sitemapHeader = 0 from by decide, hc]
    omega

/-- Embedding of `generateRobotsTxt` from `src/seo/robots.ts`: the fixed template
literal with the sitemap URL interpolated at the end. -/
def generateRobotsTxt (sitemapUrl : List Char) : List Char :=
  lit "User-agent: *\nAllow: /\n\nSitemap: " ++ sitemapUrl

/-- Embedding of `truncateDescription` from `src/seo/meta-tags.ts`. JavaScript
`substring(0, maxLength - 3)` clamps a negative bound to zero, which is
exactly truncated natural subtraction. The source default for `maxLength`
is 160 and is supplied explicitly at the call site inside
`generateBasicMetaTags`. -/
def truncateDescription (description : List Char) (maxLength : Nat) : List Char :=
  if description.length ≤ maxLength then description
  else description.take (maxLength - 3) ++ lit "..."

/-- The character map used by `escapeHtml` in `src/seo/meta-tags.ts`. -/
def escHtmlChar (c : Char) : List Char :=
  if c = '&' then lit "&amp;"
  else if c = '<' then lit "&lt;"
  else if c = '>' then lit "&gt;"
  else if c = '"' then lit "&quot;"
  else if c = aposC then lit "&#039;"
  else [c]

/-- Embedding of `escapeHtml` from `src/seo/meta-tags.ts`: the single pass
`text.replace(/[&<>"']/g, (char) => map[char])`. -/
def escapeHtml : List Char → List Char
  | [] => []
  | a :: t => escHtmlChar a ++ escapeHtml t

/-- JavaScript truthiness of an optional string value: `undefined` and the
empty string are both falsy. -/
def truthy : Option (List Char) → Bool
  | none => false
  | some s => !s.isEmpty

/-- Embedding of `MetaTagsConfig` from `src/seo/types.ts`. -/
structure MetaTagsConfig where
  title : List Char
  description : List Char
  canonicalUrl : List Char
  keywords : Option (List (List Char))
  author : Option (List Char)

/-- Embedding of `generateBasicMetaTags` from `src/seo/meta-tags.ts`: pushes the tags in
source order (charset, viewport, title, description, optional keywords,
optional author, canonical) and joins them with newlines. -/
def generateBasicMetaTags (config : MetaTagsConfig) : List Char :=
  List.intercalate (lit "\n")
    ([lit "<meta charset=\"UTF-8\">",
      lit "<meta name=\"viewport\" content=\"width=device-width, initial-scale=1.0\">",
      lit "<title>" ++ escapeHtml config.title ++ lit "</title>",
      lit "<meta name=\"description\" content=\"" ++
        escapeHtml (truncateDescription config.description 160) ++ lit "\">"]
     ++ (match config.keywords with
         | some ks =>
           if 0 < ks.length then
             [lit "<meta name=\"keywords\" content=\"" ++
               escapeHtml (List.intercalate (lit ", ") ks) ++ lit "\">"]
           else []
         | none => [])
     ++ (if truthy config.author then
           [lit "<meta name=\"author\" content=\"" ++
             escapeHtml (config.author.getD []) ++ lit "\">"]
         else [])
     ++ [lit "<link rel=\"canonical\" href=\"" ++
           escapeHtml config.canonicalUrl ++ lit "\">"])

/-- Embedding of `OpenGraphTags` from `src/seo/types.ts`. -/
structure OpenGraphTags where
  ogTitle : List Char
  ogDescription : List Char
  ogImage : List Char
  ogType : List Char
  ogUrl : List Char
  ogSiteName : Option (List Char)

/-- Embedding of `generateOpenGraphTags` from `src/seo/meta-tags.ts`. -/
def generateOpenGraphTags (config : OpenGraphTags) : List Char :=
  List.intercalate (lit "\n")
    ([lit "<meta property=\"og:title\" content=\"" ++
        escapeHtml config.ogTitle ++ lit "\">",
      lit "<meta property=\"og:description\" content=\"" ++
        escapeHtml config.ogDescription ++ lit "\">",
      lit "<meta property=\"og:image\" content=\"" ++
        escapeHtml config.ogImage ++ lit "\">",
      lit "<meta property=\"og:type\" content=\"" ++
        escapeHtml config.ogType ++ lit "\">",
      lit "<meta property=\"og:url\" content=\"" ++
        escapeHtml config.ogUrl ++ lit "\">"]
     ++ (if truthy config.ogSiteName then
           [lit "<meta property=\"og:site_name\" content=\"" ++
             escapeHtml (config.ogSiteName.getD []) ++ lit "\">"]
         else []))

/-- Embedding of `TwitterCardTags` from `src/seo/types.ts`. -/
structure TwitterCardTags where
  twitterCard : List Char
  twitterTitle : List Char
  twitterDescription : List Char
  twitterImage : List Char
  twitterSite : Option (List Char)
  twitterCreator : Option (List Char)

/-- Embedding of `generateTwitterCardTags` from `src/seo/meta-tags.ts`. -/
def generateTwitterCardTags (config : TwitterCardTags) : List Char :=
  List.intercalate (lit "\n")
    ([lit "<meta name=\"twitter:card\" content=\"" ++
        escapeHtml config.twitterCard ++ lit "\">",
      lit "<meta name=\"twitter:title\" content=\"" ++
        escapeHtml config.twitterTitle ++ lit "\">",
      lit "<meta name=\"twitter:description\" content=\"" ++
        escapeHtml config.twitterDescription ++ lit "\">",
      lit "<meta name=\"twitter:image\" content=\"" ++
        escapeHtml config.twitterImage ++ lit "\">"]
     ++ (if truthy config.twitterSite then
           [lit "<meta name=\"twitter:site\" content=\"" ++
             escapeHtml (config.twitterSite.getD []) ++ lit "\">"]
         else [])
     ++ (if truthy config.twitterCreator then
           [lit "<meta name=\"twitter:creator\" content=\"" ++
             escapeHtml (config.twitterCreator.getD []) ++ lit "\">"]
         else []))

theorem lt_not_mem_escHtmlChar (a : Char) : ('<' : Char) ∉ escHtmlChar a := by
  by_cases h1 : a = '&'
  · subst h1; decide
  by_cases h2 : a = '<'
  · subst h2; decide
  by_cases h3 : a = '>'
  · subst h3; decide
  by_cases h4 : a = '"'
  · subst h4; decide
  by_cases h5 : a = aposC
  · subst h5; decide
  rw [show escHtmlChar a = [a] from by simp [escHtmlChar, h1, h2, h3, h4, h5]]
  simp
  exact fun he => h2 he.symm

theorem lt_not_mem_escapeHtml (s : List Char) : ('<' : Char) ∉ escapeHtml s := by
  induction s with
  | nil => simp [escapeHtml]
  | cons a t ih =>
    show ('<' : Char) ∉ escHtmlChar a ++ escapeHtml t
    rw [List.mem_append]
    rintro (h | h)
    · exact lt_not_mem_escHtmlChar a h
    · exact ih h

theorem noSpan_tag (pat pt : List Char) (hp : pat = '<' :: pt)
    (l1 v l2 : List Char) (hv : ('<' : Char) ∉ v)
    (h1 : noSpan pat l1) (h2 : noSpan pat l2) :
    noSpan pat (l1 ++ v ++ l2) :=
  noSpan_append (noSpan_append h1 (hp ▸ noSpan_of_head_not_mem hv)) h2

theorem countSub_tag (pat pt : List Char) (hp : pat = '<' :: pt)
    (l1 v l2 : List Char) (hv : ('<' : Char) ∉ v) (h1 : noSpan pat l1) :
    countSub pat (l1 ++ v ++ l2) = countSub pat l1 + countSub pat l2 := by
  rw [List.append_assoc, countSub_append pat l1 _ h1,
    countSub_append pat v l2 (hp ▸ noSpan_of_head_not_mem hv), hp,
    countSub_eq_zero_of_head_not_mem hv]
  omega

theorem countSub_newline_join (pat pt : List Char) (hp : pat = '<' :: pt)
    (L : List (List Char)) (hns : ∀ t ∈ L, noSpan pat t) :
    countSub pat (List.intercalate (lit "\n") L) =
      (L.map (countSub pat)).sum := by
  rw [countSub_intercalate pat (lit "\n")
    (hp ▸ noSpan_of_head_not_mem (by decide)) L hns, hp,
    countSub_eq_zero_of_head_not_mem (by decide)]
  omega

theorem countSub_generateOpenGraphTags (pat pt : List Char) (hp : pat = '<' :: pt)
    (config : OpenGraphTags)
    (h1 : noSpan pat (lit "<meta property=\"og:title\" content=\""))
    (h2 : noSpan pat (lit "<meta property=\"og:description\" content=\""))
    (h3 : noSpan pat (lit "<meta property=\"og:image\" content=\""))
    (h4 : noSpan pat (lit "<meta property=\"og:type\" content=\""))
    (h5 : noSpan pat (lit "<meta property=\"og:url\" content=\""))
    (h6 : noSpan pat (lit "<meta property=\"og:site_name\" content=\""))
    (hq : noSpan pat (lit "\">")) :
    countSub pat (generateOpenGraphTags config) =
      countSub pat (lit "<meta property=\"og:title\" content=\"") +
      countSub pat (lit "<meta property=\"og:description\" content=\"") +
      countSub pat (lit "<meta property=\"og:image\" content=\"") +
      countSub pat (lit "<meta property=\"og:type\" content=\"") +
      countSub pat (lit "<meta property=\"og:url\" content=\"") +
      5 * countSub pat (lit "\">") +
      (if truthy config.ogSiteName then
        countSub pat (lit "<meta property=\"og:site_name\" content=\"") +
          countSub pat (lit "\">")
       else 0) := by
  unfold generateOpenGraphTags
  by_cases hs : truthy config.ogSiteName
  · rw [if_pos hs, if_pos hs,
      countSub_newline_join pat pt hp _ ?_]
    · simp only [List.map_append, List.map_cons, List.map_nil, List.sum_append,
        List.sum_cons, List.sum_nil,
        countSub_tag pat pt hp _ _ _ (lt_not_mem_escapeHtml _) h1,
        countSub_tag pat pt hp _ _ _ (lt_not_mem_escapeHtml _) h2,
        countSub_tag pat pt hp _ _ _ (lt_not_mem_escapeHtml _) h3,
        countSub_tag pat pt hp _ _ _ (lt_not_mem_escapeHtml _) h4,
        countSub_tag pat pt hp _ _ _ (lt_not_mem_escapeHtml _) h5,
        countSub_tag pat pt hp _ _ _ (lt_not_mem_escapeHtml _) h6]
      omega
    · intro t ht
      simp only [List.mem_append, List.mem_cons, List.not_mem_nil, or_false] at ht
      rcases ht with (h | h | h | h | h) | h <;> subst h
      · exact noSpan_tag pat pt hp _ _ _ (lt_not_mem_escapeHtml _) h1 hq
      · exact noSpan_tag pat pt hp _ _ _ (lt_not_mem_escapeHtml _) h2 hq
      · exact noSpan_tag pat pt hp _ _ _ (lt_not_mem_escapeHtml _) h3 hq
      · exact noSpan_tag pat pt hp _ _ _ (lt_not_mem_escapeHtml _) h4 hq
      · exact noSpan_tag pat pt hp _ _ _ (lt_not_mem_escapeHtml _) h5 hq
      · exact noSpan_tag pat pt hp _ _ _ (lt_not_mem_escapeHtml _) h6 hq
  · rw [if_neg hs, if_neg hs,
      countSub_newline_join pat pt hp _ ?_]
    · simp only [List.map_append, List.map_cons, List.map_nil, List.sum_append,
        List.sum_cons, List.sum_nil,
        countSub_tag pat pt hp _ _ _ (lt_not_mem_escapeHtml _) h1,
        countSub_tag pat pt hp _ _ _ (lt_not_mem_escapeHtml _) h2,
        countSub_tag pat pt hp _ _ _ (lt_not_mem_escapeHtml _) h3,
        countSub_tag pat pt hp _ _ _ (lt_not_mem_escapeHtml _) h4,
        countSub_tag pat pt hp _ _ _ (lt_not_mem_escapeHtml _) h5]
      omega
    · intro t ht
      simp only [List.mem_append, List.mem_cons, List.not_mem_nil, or_false,
        List.append_nil] at ht
      rcases ht with h | h | h | h | h <;> subst h
      · exact noSpan_tag pat pt hp _ _ _ (lt_not_mem_escapeHtml _) h1 hq
      · exact noSpan_tag pat pt hp _ _ _ (lt_not_mem_escapeHtml _) h2 hq
      · exact noSpan_tag pat pt hp _ _ _ (lt_not_mem_escapeHtml _) h3 hq
      · exact noSpan_tag pat pt hp _ _ _ (lt_not_mem_escapeHtml _) h4 hq
      · exact noSpan_tag pat pt hp _ _ _ (lt_not_mem_escapeHtml _) h5 hq

theorem countSub_generateTwitterCardTags (pat pt : List Char) (hp : pat = '<' :: pt)
    (config : TwitterCardTags)
    (h1 : noSpan pat (lit "<meta name=\"twitter:card\" content=\""))
    (h2 : noSpan pat (lit "<meta name=\"twitter:title\" content=\""))
    (h3 : noSpan pat (lit "<meta name=\"twitter:description\" content=\""))
    (h4 : noSpan pat (lit "<meta name=\"twitter:image\" content=\""))
    (h5 : noSpan pat (lit "<meta name=\"twitter:site\" content=\""))
    (h6 : noSpan pat (lit "<meta name=\"twitter:creator\" content=\""))
    (hq : noSpan pat (lit "\">")) :
    countSub pat (generateTwitterCardTags config) =
      countSub pat (lit "<meta name=\"twitter:card\" content=\"") +
      countSub pat (lit "<meta name=\"twitter:title\" content=\"") +
      countSub pat (lit "<meta name=\"twitter:description\" content=\"") +
      countSub pat (lit "<meta name=\"twitter:image\" content=\"") +
      4 * countSub pat (lit "\">") +
      (if truthy config.twitterSite then
        countSub pat (lit "<meta name=\"twitter:site\" content=\"") + countSub pat (lit "\">") else 0) +
      (if truthy config.twitterCreator then
        countSub pat (lit "<meta name=\"twitter:creator\" content=\"") + countSub pat (lit "\">") else 0) := by
  unfold generateTwitterCardTags
  by_cases hs : truthy config.twitterSite
  · by_cases hc : truthy config.twitterCreator
    ·
      rw [if_pos hs, if_pos hs, if_pos hc, if_pos hc,
        countSub_newline_join pat pt hp _ ?_]
      · simp only [List.map_append, List.map_cons, List.map_nil, List.sum_append,
          List.sum_cons, List.sum_nil, List.append_nil,
          countSub_tag pat pt hp _ _ _ (lt_not_mem_escapeHtml _) h1,
          countSub_tag pat pt hp _ _ _ (lt_not_mem_escapeHtml _) h2,
          countSub_tag pat pt hp _ _ _ (lt_not_mem_escapeHtml _) h3,
          countSub_tag pat pt hp _ _ _ (lt_not_mem_escapeHtml _) h4,
          countSub_tag pat pt hp _ _ _ (lt_not_mem_escapeHtml _) h5,
          countSub_tag pat pt hp _ _ _ (lt_not_mem_escapeHtml _) h6]
        omega
      · intro t ht
        simp only [List.mem_append, List.mem_cons, List.not_mem_nil, or_false,
          List.append_nil] at ht
        rcases ht with ((h | h | h | h) | h) | h <;> subst h
        · exact noSpan_tag pat pt hp _ _ _ (lt_not_mem_escapeHtml _) h1 hq
        · exact noSpan_tag pat pt hp _ _ _ (lt_not_mem_escapeHtml _) h2 hq
        · exact noSpan_tag pat pt hp _ _ _ (lt_not_mem_escapeHtml _) h3 hq
        · exact noSpan_tag pat pt hp _ _ _ (lt_not_mem_escapeHtml _) h4 hq
        · exact noSpan_tag pat pt hp _ _ _ (lt_not_mem_escapeHtml _) h5 hq
        · exact noSpan_tag pat pt hp _ _ _ (lt_not_mem_escapeHtml _) h6 hq
    ·
      rw [if_pos hs, if_pos hs, if_neg hc, if_neg hc,
        countSub_newline_join pat pt hp _ ?_]
      · simp only [List.map_append, List.map_cons, List.map_nil, List.sum_append,
          List.sum_cons, List.sum_nil, List.append_nil,
          countSub_tag pat pt hp _ _ _ (lt_not_mem_escapeHtml _) h1,
          countSub_tag pat pt hp _ _ _ (lt_not_mem_escapeHtml _) h2,
          countSub_tag pat pt hp _ _ _ (lt_not_mem_escapeHtml _) h3,
          countSub_tag pat pt hp _ _ _ (lt_not_mem_escapeHtml _) h4,
          countSub_tag pat pt hp _ _ _ (lt_not_mem_escapeHtml _) h5]
        omega
      · intro t ht
        simp only [List.mem_append, List.mem_cons, List.not_mem_nil, or_false,
          List.append_nil] at ht
        rcases ht with (h | h | h | h) | h <;> subst h
        · exact noSpan_tag pat pt hp _ _ _ (lt_not_mem_escapeHtml _) h1 hq
        · exact noSpan_tag pat pt hp _ _ _ (lt_not_mem_escapeHtml _) h2 hq
        · exact noSpan_tag pat pt hp _ _ _ (lt_not_mem_escapeHtml _) h3 hq
        · exact noSpan_tag pat pt hp _ _ _ (lt_not_mem_escapeHtml _) h4 hq
        · exact noSpan_tag pat pt hp _ _ _ (lt_not_mem_escapeHtml _) h5 hq
  · by_cases hc : truthy config.twitterCreator
    ·
      rw [if_neg hs, if_neg hs, if_pos hc, if_pos hc,
        countSub_newline_join pat pt hp _ ?_]
      · simp only [List.map_append, List.map_cons, List.map_nil, List.sum_append,
          List.sum_cons, List.sum_nil, List.append_nil,
          countSub_tag pat pt hp _ _ _ (lt_not_mem_escapeHtml _) h1,
          countSub_tag pat pt hp _ _ _ (lt_not_mem_escapeHtml _) h2,
          countSub_tag pat pt hp _ _ _ (lt_not_mem_escapeHtml _) h3,
          countSub_tag pat pt hp _ _ _ (lt_not_mem_escapeHtml _) h4,
          countSub_tag pat pt hp _ _ _ (lt_not_mem_escapeHtml _) h6]
        omega
      · intro t ht
        simp only [List.mem_append, List.mem_cons, List.not_mem_nil, or_false,
          List.append_nil] at ht
        rcases ht with (h | h | h | h) | h <;> subst h
        · exact noSpan_tag pat pt hp _ _ _ (lt_not_mem_escapeHtml _) h1 hq
        · exact noSpan_tag pat pt hp _ _ _ (lt_not_mem_escapeHtml _) h2 hq
        · exact noSpan_tag pat pt hp _ _ _ (lt_not_mem_escapeHtml _) h3 hq
        · exact noSpan_tag pat pt hp _ _ _ (lt_not_mem_escapeHtml _) h4 hq
        · exact noSpan_tag pat pt hp _ _ _ (lt_not_mem_escapeHtml _) h6 hq
    ·
      rw [if_neg hs, if_neg hs, if_neg hc, if_neg hc,
        countSub_newline_join pat pt hp _ ?_]
      · simp only [List.map_append, List.map_cons, List.map_nil, List.sum_append,
          List.sum_cons, List.sum_nil, List.append_nil,
          countSub_tag pat pt hp _ _ _ (lt_not_mem_escapeHtml _) h1,
          countSub_tag pat pt hp _ _ _ (lt_not_mem_escapeHtml _) h2,
          countSub_tag pat pt hp _ _ _ (lt_not_mem_escapeHtml _) h3,
          countSub_tag pat pt hp _ _ _ (lt_not_mem_escapeHtml _) h4]
        omega
      · intro t ht
        simp only [List.mem_append, List.mem_cons, List.not_mem_nil, or_false,
          List.append_nil] at ht
        rcases ht with h | h | h | h <;> subst h
        · exact noSpan_tag pat pt hp _ _ _ (lt_not_mem_escapeHtml _) h1 hq
        · exact noSpan_tag pat pt hp _ _ _ (lt_not_mem_escapeHtml _) h2 hq
        · exact noSpan_tag pat pt hp _ _ _ (lt_not_mem_escapeHtml _) h3 hq
        · exact noSpan_tag pat pt hp _ _ _ (lt_not_mem_escapeHtml _) h4 hq

theorem countSub_generateBasicMetaTags (pat pt : List Char) (hp : pat = '<' :: pt)
    (config : MetaTagsConfig)
    (h1 : noSpan pat (lit "<meta charset=\"UTF-8\">"))
    (h2 : noSpan pat (lit "<meta name=\"viewport\" content=\"width=device-width, initial-scale=1.0\">"))
    (h3 : noSpan pat (lit "<title>"))
    (h4 : noSpan pat (lit "</title>"))
    (h5 : noSpan pat (lit "<meta name=\"description\" content=\""))
    (h6 : noSpan pat (lit "<meta name=\"keywords\" content=\""))
    (h7 : noSpan pat (lit "<meta name=\"author\" content=\""))
    (h8 : noSpan pat (lit "<link rel=\"canonical\" href=\""))
    (hq : noSpan pat (lit "\">")) :
    countSub pat (generateBasicMetaTags config) =
      countSub pat (lit "<meta charset=\"UTF-8\">") +
      countSub pat (lit "<meta name=\"viewport\" content=\"width=device-width, initial-scale=1.0\">") +
      (countSub pat (lit "<title>") + countSub pat (lit "</title>")) +
      (countSub pat (lit "<meta name=\"description\" content=\"") + countSub pat (lit "\">")) +
      (match config.keywords with
       | some ks =>
         if 0 < ks.length then
           countSub pat (lit "<meta name=\"keywords\" content=\"") + countSub pat (lit "\">")
         else 0
       | none => 0) +
      (if truthy config.author then
        countSub pat (lit "<meta name=\"author\" content=\"") + countSub pat (lit "\">") else 0) +
      (countSub pat (lit "<link rel=\"canonical\" href=\"") + countSub pat (lit "\">")) := by
  unfold generateBasicMetaTags
  rcases hk : config.keywords with _ | ks <;> simp only [hk]
  · by_cases ha : truthy config.author
    · rw [if_pos ha, if_pos ha]
      rw [countSub_newline_join pat pt hp _ ?_]
      · simp only [List.map_append, List.map_cons, List.map_nil, List.sum_append,
          List.sum_cons, List.sum_nil, List.append_nil,
          countSub_tag pat pt hp _ _ _ (lt_not_mem_escapeHtml _) h3,
          countSub_tag pat pt hp _ _ _ (lt_not_mem_escapeHtml _) h5,
          countSub_tag pat pt hp _ _ _ (lt_not_mem_escapeHtml _) h7,
          countSub_tag pat pt hp _ _ _ (lt_not_mem_escapeHtml _) h8]
        omega
      · intro t ht
        simp only [List.mem_append, List.mem_cons, List.not_mem_nil, or_false,
          List.append_nil] at ht
        rcases ht with ((h | h | h | h) | h) | h <;> subst h
        · exact h1
        · exact h2
        · exact noSpan_tag pat pt hp _ _ _ (lt_not_mem_escapeHtml _) h3 h4
        · exact noSpan_tag pat pt hp _ _ _ (lt_not_mem_escapeHtml _) h5 hq
        · exact noSpan_tag pat pt hp _ _ _ (lt_not_mem_escapeHtml _) h7 hq
        · exact noSpan_tag pat pt hp _ _ _ (lt_not_mem_escapeHtml _) h8 hq
    · rw [if_neg ha, if_neg ha]
      rw [countSub_newline_join pat pt hp _ ?_]
      · simp only [List.map_append, List.map_cons, List.map_nil, List.sum_append,
          List.sum_cons, List.sum_nil, List.append_nil,
          countSub_tag pat pt hp _ _ _ (lt_not_mem_escapeHtml _) h3,
          countSub_tag pat pt hp _ _ _ (lt_not_mem_escapeHtml _) h5,
          countSub_tag pat pt hp _ _ _ (lt_not_mem_escapeHtml _) h8]
        omega
      · intro t ht
        simp only [List.mem_append, List.mem_cons, List.not_mem_nil, or_false,
          List.append_nil] at ht
        rcases ht with (h | h | h | h) | h <;> subst h
        · exact h1
        · exact h2
        · exact noSpan_tag pat pt hp _ _ _ (lt_not_mem_escapeHtml _) h3 h4
        · exact noSpan_tag pat pt hp _ _ _ (lt_not_mem_escapeHtml _) h5 hq
        · exact noSpan_tag pat pt hp _ _ _ (lt_not_mem_escapeHtml _) h8 hq
  · by_cases hl : 0 < ks.length
    · rw [if_pos hl, if_pos hl]
      by_cases ha : truthy config.author
      · rw [if_pos ha, if_pos ha]
        rw [countSub_newline_join pat pt hp _ ?_]
        · simp only [List.map_append, List.map_cons, List.map_nil, List.sum_append,
            List.sum_cons, List.sum_nil, List.append_nil,
            countSub_tag pat pt hp _ _ _ (lt_not_mem_escapeHtml _) h3,
            countSub_tag pat pt hp _ _ _ (lt_not_mem_escapeHtml _) h5,
            countSub_tag pat pt hp _ _ _ (lt_not_mem_escapeHtml _) h6,
            countSub_tag pat pt hp _ _ _ (lt_not_mem_escapeHtml _) h7,
            countSub_tag pat pt hp _ _ _ (lt_not_mem_escapeHtml _) h8]
          omega
        · intro t ht
          simp only [List.mem_append, List.mem_cons, List.not_mem_nil, or_false,
            List.append_nil] at ht
          rcases ht with (((h | h | h | h) | h) | h) | h <;> subst h
          · exact h1
          · exact h2
          · exact noSpan_tag pat pt hp _ _ _ (lt_not_mem_escapeHtml _) h3 h4
          · exact noSpan_tag pat pt hp _ _ _ (lt_not_mem_escapeHtml _) h5 hq
          · exact noSpan_tag pat pt hp _ _ _ (lt_not_mem_escapeHtml _) h6 hq
          · exact noSpan_tag pat pt hp _ _ _ (lt_not_mem_escapeHtml _) h7 hq
          · exact noSpan_tag pat pt hp _ _ _ (lt_not_mem_escapeHtml _) h8 hq
      · rw [if_neg ha, if_neg ha]
        rw [countSub_newline_join pat pt hp _ ?_]
        · simp only [List.map_append, List.map_cons, List.map_nil, List.sum_append,
            List.sum_cons, List.sum_nil, List.append_nil,
            countSub_tag pat pt hp _ _ _ (lt_not_mem_escapeHtml _) h3,
            countSub_tag pat pt hp _ _ _ (lt_not_mem_escapeHtml _) h5,
            countSub_tag pat pt hp _ _ _ (lt_not_mem_escapeHtml _) h6,
            countSub_tag pat pt hp _ _ _ (lt_not_mem_escapeHtml _) h8]
          omega
        · intro t ht
          simp only [List.mem_append, List.mem_cons, List.not_mem_nil, or_false,
            List.append_nil] at ht
          rcases ht with ((h | h | h | h) | h) | h <;> subst h
          · exact h1
          · exact h2
          · exact noSpan_tag pat pt hp _ _ _ (lt_not_mem_escapeHtml _) h3 h4
          · exact noSpan_tag pat pt hp _ _ _ (lt_not_mem_escapeHtml _) h5 hq
          · exact noSpan_tag pat pt hp _ _ _ (lt_not_mem_escapeHtml _) h6 hq
          · exact noSpan_tag pat pt hp _ _ _ (lt_not_mem_escapeHtml _) h8 hq
    · rw [if_neg hl, if_neg hl]
      by_cases ha : truthy config.author
      · rw [if_pos ha, if_pos ha]
        rw [countSub_newline_join pat pt hp _ ?_]
        · simp only [List.map_append, List.map_cons, List.map_nil, List.sum_append,
            List.sum_cons, List.sum_nil, List.append_nil,
            countSub_tag pat pt hp _ _ _ (lt_not_mem_escapeHtml _) h3,
            countSub_tag pat pt hp _ _ _ (lt_not_mem_escapeHtml _) h5,
            countSub_tag pat pt hp _ _ _ (lt_not_mem_escapeHtml _) h7,
            countSub_tag pat pt hp _ _ _ (lt_not_mem_escapeHtml _) h8]
          omega
        · intro t ht
          simp only [List.mem_append, List.mem_cons, List.not_mem_nil, or_false,
            List.append_nil] at ht
          rcases ht with ((h | h | h | h) | h) | h <;> subst h
          · exact h1
          · exact h2
          · exact noSpan_tag pat pt hp _ _ _ (lt_not_mem_escapeHtml _) h3 h4
          · exact noSpan_tag pat pt hp _ _ _ (lt_not_mem_escapeHtml _) h5 hq
          · exact noSpan_tag pat pt hp _ _ _ (lt_not_mem_escapeHtml _) h7 hq
          · exact noSpan_tag pat pt hp _ _ _ (lt_not_mem_escapeHtml _) h8 hq
      · rw [if_neg ha, if_neg ha]
        rw [countSub_newline_join pat pt hp _ ?_]
        · simp only [List.map_append, List.map_cons, List.map_nil, List.sum_append,
            List.sum_cons, List.sum_nil, List.append_nil,
            countSub_tag pat pt hp _ _ _ (lt_not_mem_escapeHtml _) h3,
            countSub_tag pat pt hp _ _ _ (lt_not_mem_escapeHtml _) h5,
            countSub_tag pat pt hp _ _ _ (lt_not_mem_escapeHtml _) h8]
          omega
        · intro t ht
          simp only [List.mem_append, List.mem_cons, List.not_mem_nil, or_false,
            List.append_nil] at ht
          rcases ht with (h | h | h | h) | h <;> subst h
          · exact h1
          · exact h2
          · exact noSpan_tag pat pt hp _ _ _ (lt_not_mem_escapeHtml _) h3 h4
          · exact noSpan_tag pat pt hp _ _ _ (lt_not_mem_escapeHtml _) h5 hq
          · exact noSpan_tag pat pt hp _ _ _ (lt_not_mem_escapeHtml _) h8 hq

/-- The environment-variable keys used by `src/seo/config.ts` (the fields
of its `Env` interface). -/
inductive EnvKey where
  | SITE_URL | SITE_DOMAIN | GA_MEASUREMENT_ID | GSC_VERIFICATION_ID | ENVIRONMENT

/-- An environment layer (Cloudflare bindings or `process.env`): a map from
keys to possibly-absent string values. -/
def EnvMap := EnvKey → Option (List Char)

/-- Key lookup through a possibly-absent layer (`env && env[key]` and
`typeof process !== "undefined" && process.env && process.env[key]`). -/
def envLookup (m : Option EnvMap) (key : EnvKey) : Option (List Char) :=
  match m with
  | none => none
  | some f => f key

/-- Embedding of `getEnv` from `src/seo/config.ts`: try the Cloudflare bindings first,
then `process.env`, then the default value; a missing layer, a missing key
or an empty-string value is falsy and falls through. The ambient
`process.env` is passed explicitly as `procEnv`. -/
def getEnv (key : EnvKey) (defaultValue : List Char)
    (env procEnv : Option EnvMap) : List Char :=
  if truthy (envLookup env key) then (envLookup env key).getD []
  else if truthy (envLookup procEnv key) then (envLookup procEnv key).getD []
  else defaultValue

/-- Embedding of `isProduction` from `src/seo/config.ts`. -/
def isProduction (env procEnv : Option EnvMap) : Bool :=
  getEnv .ENVIRONMENT (lit "production") env procEnv == lit "production"

/-- The record returned by `createSiteConfig`. -/
structure SiteCfg where
  url : List Char
  domain : List Char

/-- Embedding of `createSiteConfig` from `src/seo/config.ts`. -/
def createSiteConfig (env procEnv : Option EnvMap) : SiteCfg :=
  { url := getEnv .SITE_URL (lit "https://sandeepkommineni.me") env procEnv,
    domain := getEnv .SITE_DOMAIN (lit "sandeepkommineni.me") env procEnv }

/-- Embedding of `AnalyticsConfig` from `src/seo/types.ts`, as populated by
`createAnalyticsConfig`. -/
structure AnalyticsCfg where
  googleAnalyticsId : List Char
  googleSearchConsoleId : List Char
  enableDebug : Bool

/-- Embedding of `createAnalyticsConfig` from `src/seo/config.ts`. -/
def createAnalyticsConfig (env procEnv : Option EnvMap) : AnalyticsCfg :=
  { googleAnalyticsId := getEnv .GA_MEASUREMENT_ID [] env procEnv,
    googleSearchConsoleId := getEnv .GSC_VERIFICATION_ID [] env procEnv,
    enableDebug := !(isProduction env procEnv) }

/-- Embedding of `SITE_NAME` from `src/seo/config.ts`. -/
def SITE_NAME : List Char :=
  lit "Sandeep Kommineni — AI/ML Engineer & Full-Stack Developer"

/-- Embedding of `SITE_AUTHOR` from `src/seo/config.ts`. -/
def SITE_AUTHOR : List Char := lit "Sandeep Kommineni"

/-- Embedding of `SITE_DESCRIPTION` from `src/seo/config.ts`. -/
def SITE_DESCRIPTION : List Char :=
  lit "Sandeep Kommineni — AI/ML Engineer building production-grade AI platforms. Expert in Generative AI, LLMs, real-time systems, and full-stack development."

/-- The module-level `SITE_URL` constant, which reads only `process.env`. -/
def SITE_URL (procEnv : Option EnvMap) : List Char :=
  getEnv .SITE_URL (lit "https://sandeepkommineni.me") none procEnv

/-- Location sub-record of `PersonData` (`src/seo/types.ts`). -/
structure PersonLocation where
  city : List Char
  region : List Char
  country : List Char

/-- Social-profile sub-record of `PersonData` (`src/seo/types.ts`). -/
structure PersonSocial where
  github : List Char
  linkedin : List Char

/-- Embedding of `PersonData` from `src/seo/types.ts`. -/
structure PersonData where
  name : List Char
  jobTitle : List Char
  email : List Char
  phone : List Char
  location : PersonLocation
  socialProfiles : PersonSocial
  image : Option (List Char)
  bio : Option (List Char)

/-- Embedding of `PERSON_DATA` from `src/seo/config.ts` (its `image` field interpolates
the module-level `SITE_URL`). -/
def PERSON_DATA (procEnv : Option EnvMap) : PersonData :=
  { name := lit "Sandeep Kommineni",
    jobTitle := lit "AI/ML Engineer & Full-Stack Developer",
    email := lit "sandeepkommineni2@gmail.com",
    phone := lit "+919573456001",
    location := { city := lit "Guntur", region := lit "Andhra Pradesh",
                  country := lit "India" },
    socialProfiles :=
      { github := lit "https://github.com/SANDEEPxKOMMINENI",
        linkedin := lit "https://www.linkedin.com/in/sandeep-chowdary-kommineni/" },
    image := some (SITE_URL procEnv ++ lit "/static/profile.jpg"),
    bio := some (lit "AI/ML Engineer with real-world experience building and deploying production-grade AI platforms. Expert in Generative AI, LLMs, real-time systems, and scalable full-stack applications.") }

/-- Embedding of `PRIMARY_KEYWORDS` from `src/seo/config.ts`. -/
def PRIMARY_KEYWORDS : List (List Char) :=
  [lit "Sandeep Kommineni", lit "AI/ML Engineer", lit "Full-Stack Developer",
   lit "Generative AI Engineer", lit "LLM Engineer", lit "AI Developer"]

/-- Embedding of `SECONDARY_KEYWORDS` from `src/seo/config.ts`. -/
def SECONDARY_KEYWORDS : List (List Char) :=
  [lit "React Developer", lit "Python Developer", lit "FastAPI", lit "Next.js",
   lit "LiveKit", lit "OpenAI", lit "Machine Learning", lit "Deep Learning",
   lit "NLP", lit "Computer Vision", lit "RAG", lit "Agentic AI",
   lit "Real-time AI", lit "Multimodal AI"]

/-- Embedding of `LOCATION_KEYWORDS` from `src/seo/config.ts`. -/
def LOCATION_KEYWORDS : List (List Char) :=
  [lit "Guntur", lit "Andhra Pradesh", lit "India", lit "AI Engineer India",
   lit "ML Engineer Andhra Pradesh"]

/-- Embedding of `ALL_KEYWORDS` from `src/seo/config.ts`. -/
def ALL_KEYWORDS : List (List Char) :=
  PRIMARY_KEYWORDS ++ SECONDARY_KEYWORDS ++ LOCATION_KEYWORDS

/-- Embedding of `SiteInfo` from `src/seo/types.ts`. -/
structure SiteInfo where
  name : List Char
  url : List Char
  domain : List Char
  author : List Char
  description : List Char

/-- The `meta` sub-record of `SEOConfig` (`src/seo/types.ts`). -/
structure MetaInfo where
  title : List Char
  description : List Char
  keywords : List (List Char)
  ogImage : List Char

/-- Embedding of `SEOConfig` from `src/seo/types.ts`. -/
structure SEOConfig where
  site : SiteInfo
  meta : MetaInfo
  person : PersonData
  analytics : AnalyticsCfg
  environment : List Char

/-- Embedding of `createSEOConfig` from `src/seo/config.ts`. -/
def createSEOConfig (env procEnv : Option EnvMap) : SEOConfig :=
  let siteConfig := createSiteConfig env procEnv
  let analyticsConfig := createAnalyticsConfig env procEnv
  { site := { name := SITE_NAME, url := siteConfig.url,
              domain := siteConfig.domain, author := SITE_AUTHOR,
              description := SITE_DESCRIPTION },
    meta := { title := SITE_NAME, description := SITE_DESCRIPTION,
              keywords := ALL_KEYWORDS,
              ogImage := siteConfig.url ++ lit "/static/profile.jpg" },
    person := { PERSON_DATA procEnv with
                image := some (siteConfig.url ++ lit "/static/profile.jpg") },
    analytics := analyticsConfig,
    environment := if isProduction env procEnv then lit "production"
                   else lit "development" }

/-- The resolution order stated by the spec: the first non-empty value in
the given layer order wins, and an empty string at any layer is treated
exactly like an absent value; the last resort is the hardcoded default. -/
def firstNonEmptySpec : List (Option (List Char)) → List Char → List Char
  | [], d => d
  | o :: rest, d =>
    match o with
    | some v => if v.isEmpty then firstNonEmptySpec rest d else v
    | none => firstNonEmptySpec rest d

theorem getEnv_eq_firstNonEmptySpec (key : EnvKey) (dflt : List Char)
    (env procEnv : Option EnvMap) :
    getEnv key dflt env procEnv =
      firstNonEmptySpec [envLookup env key, envLookup procEnv key] dflt := by
  unfold getEnv firstNonEmptySpec
  rcases envLookup env key with _ | v
  · simp only [truthy]
    rcases envLookup procEnv key with _ | w
    · simp [truthy, firstNonEmptySpec]
    · simp only [truthy, firstNonEmptySpec, Option.getD]
      by_cases hw : w.isEmpty <;> simp [hw, firstNonEmptySpec]
  · simp only [truthy, Option.getD]
    by_cases hv : v.isEmpty
    · simp only [hv, Bool.not_true, if_neg]
      rcases envLookup procEnv key with _ | w
      · simp [truthy, firstNonEmptySpec]
      · simp only [truthy, firstNonEmptySpec, Option.getD]
        by_cases hw : w.isEmpty <;> simp [hw, firstNonEmptySpec]
    · simp [hv, firstNonEmptySpec]

/-- JSON values produced by the structured-data module (only strings,
arrays and objects occur). -/
inductive Json where
  | str : List Char → Json
  | arr : List Json → Json
  | obj : List (List Char × Json) → Json

/-- Lower-case hexadecimal digit. -/
def hexDigit (n : Nat) : Char :=
  if n < 10 then Char.ofNat (48 + n) else Char.ofNat (87 + n)

/-- The string-escaping rules of `JSON.stringify`. -/
def jsonEscChar (c : Char) : List Char :=
  if c = '"' then ['\\', '"']
  else if c = '\\' then ['\\', '\\']
  else if c = Char.ofNat 8 then ['\\', 'b']
  else if c = Char.ofNat 9 then ['\\', 't']
  else if c = Char.ofNat 10 then ['\\', 'n']
  else if c = Char.ofNat 12 then ['\\', 'f']
  else if c = Char.ofNat 13 then ['\\', 'r']
  else if c.toNat < 32 then
    ['\\', 'u', '0', '0', hexDigit (c.toNat / 16), hexDigit (c.toNat % 16)]
  else [c]

/-- Escape every character of a JSON string body. -/
def jsonEscape : List Char → List Char
  | [] => []
  | a :: t => jsonEscChar a ++ jsonEscape t

/-- A double-quoted JSON string literal. -/
def quoteJson (s : List Char) : List Char := '"' :: jsonEscape s ++ ['"']

/-- Indentation of `n` spaces. -/
def nspaces (n : Nat) : List Char := List.replicate n ' '

mutual

/-- Serialization as in `JSON.stringify(v, null, 2)` at nesting depth `d`. -/
def serJson : Nat → Json → List Char
  | _, .str s => quoteJson s
  | d, .arr xs => serArr d xs
  | d, .obj fs => serObj d fs

/-- Pretty-printed array at depth `d`. -/
def serArr : Nat → List Json → List Char
  | _, [] => lit "[]"
  | d, x :: xs =>
    '[' :: '\n' :: (serArrItems (d + 1) (x :: xs) ++
      ('\n' :: nspaces (2 * d) ++ [']']))

/-- Array elements, comma-and-newline separated, each indented. -/
def serArrItems : Nat → List Json → List Char
  | _, [] => []
  | d, [x] => nspaces (2 * d) ++ serJson d x
  | d, x :: x' :: xs =>
    nspaces (2 * d) ++ serJson d x ++ lit ",\n" ++ serArrItems d (x' :: xs)

/-- Pretty-printed object at depth `d`. -/
def serObj : Nat → List (List Char × Json) → List Char
  | _, [] => lit "\x7b\x7d"
  | d, f :: fs =>
    '\x7b' :: '\n' :: (serObjItems (d + 1) (f :: fs) ++
      ('\n' :: nspaces (2 * d) ++ ['\x7d']))

/-- Object members, comma-and-newline separated, each indented. -/
def serObjItems : Nat → List (List Char × Json) → List Char
  | _, [] => []
  | d, [(k, v)] => nspaces (2 * d) ++ quoteJson k ++ lit ": " ++ serJson d v
  | d, (k, v) :: f :: fs =>
    nspaces (2 * d) ++ quoteJson k ++ lit ": " ++ serJson d v ++ lit ",\n" ++
      serObjItems d (f :: fs)

end

/-- The call `JSON.stringify(value, null, 2)` as made by the structured-data
generators. -/
def jsonStringify2 (j : Json) : List Char := serJson 0 j

/-- JavaScript truthiness of a required string field. -/
def truthyStr (s : List Char) : Bool := !s.isEmpty

/-- Embedding of `ExperienceData` from `src/seo/types.ts`. -/
structure ExperienceData where
  company : List Char
  role : List Char
  description : List Char
  startDate : List Char
  endDate : Option (List Char)
  location : List Char
  skills : Option (List (List Char))
  companyUrl : Option (List Char)

/-- Embedding of `ProjectData` from `src/seo/types.ts`. -/
structure ProjectData where
  name : List Char
  description : List Char
  url : Option (List Char)
  technologies : List (List Char)
  dateCreated : Option (List Char)
  datePublished : Option (List Char)

/-- Embedding of `EducationData` from `src/seo/types.ts`. -/
structure EducationData where
  institution : List Char
  degree : List Char
  field : List Char
  startDate : List Char
  endDate : List Char
  gpa : Option (List Char)
  location : Option (List Char)

/-- The object built by `generatePersonSchema` in
`src/seo/structured-data.ts`, before stringification: literal fields in
source order, then `image` and `description` appended when truthy. -/
def personJson (data : PersonData) (siteUrl : List Char) : Json :=
  Json.obj
    ([(lit "@context", Json.str (lit "https://schema.org")),
      (lit "@type", Json.str (lit "Person")),
      (lit "name", Json.str data.name),
      (lit "jobTitle", Json.str data.jobTitle),
      (lit "url", Json.str siteUrl),
      (lit "email", Json.str data.email),
      (lit "telephone", Json.str data.phone),
      (lit "address", Json.obj
        [(lit "@type", Json.str (lit "PostalAddress")),
         (lit "addressLocality", Json.str data.location.city),
         (lit "addressRegion", Json.str data.location.region),
         (lit "addressCountry", Json.str data.location.country)]),
      (lit "sameAs", Json.arr
        [Json.str data.socialProfiles.github,
         Json.str data.socialProfiles.linkedin])]
     ++ (if truthy data.image then
           [(lit "image", Json.str (data.image.getD []))] else [])
     ++ (if truthy data.bio then
           [(lit "description", Json.str (data.bio.getD []))] else []))

/-- Embedding of `generatePersonSchema` from `src/seo/structured-data.ts`. -/
def generatePersonSchema (data : PersonData) (siteUrl : List Char) : List Char :=
  jsonStringify2 (personJson data siteUrl)

/-- The per-experience object built by `generateWorkExperienceSchema`:
the `employer.url` assignment mutates the nested employer object, and the
other conditional assignments append top-level fields in source order. -/
def expJson (exp : ExperienceData) : Json :=
  Json.obj
    ([(lit "@context", Json.str (lit "https://schema.org")),
      (lit "@type", Json.str (lit "WorkExperience")),
      (lit "name", Json.str exp.role),
      (lit "description", Json.str exp.description),
      (lit "startDate", Json.str exp.startDate),
      (lit "employer", Json.obj
        ([(lit "@type", Json.str (lit "Organization")),
          (lit "name", Json.str exp.company)]
         ++ (if truthy exp.companyUrl then
               [(lit "url", Json.str (exp.companyUrl.getD []))] else [])))]
     ++ (if truthy exp.endDate then
           [(lit "endDate", Json.str (exp.endDate.getD []))] else [])
     ++ (if truthyStr exp.location then
           [(lit "location", Json.str exp.location)] else [])
     ++ (match exp.skills with
         | some sk =>
           if 0 < sk.length then [(lit "skills", Json.arr (sk.map Json.str))]
           else []
         | none => []))

/-- Embedding of `generateWorkExperienceSchema` from `src/seo/structured-data.ts`. -/
def generateWorkExperienceSchema (experiences : List ExperienceData) : List Char :=
  jsonStringify2 (Json.arr (experiences.map expJson))

/-- The per-project object built by `generateCreativeWorkSchema`. -/
def projJson (authorName : List Char) (project : ProjectData) : Json :=
  Json.obj
    ([(lit "@context", Json.str (lit "https://schema.org")),
      (lit "@type", Json.str (lit "CreativeWork")),
      (lit "name", Json.str project.name),
      (lit "description", Json.str project.description),
      (lit "author", Json.obj
        [(lit "@type", Json.str (lit "Person")),
         (lit "name", Json.str authorName)])]
     ++ (if truthy project.url then
           [(lit "url", Json.str (project.url.getD []))] else [])
     ++ (if truthy project.dateCreated then
           [(lit "dateCreated", Json.str (project.dateCreated.getD []))] else [])
     ++ (if truthy project.datePublished then
           [(lit "datePublished", Json.str (project.datePublished.getD []))] else [])
     ++ (if 0 < project.technologies.length then
           [(lit "keywords", Json.arr (project.technologies.map Json.str))]
         else []))

/-- Embedding of `generateCreativeWorkSchema` from `src/seo/structured-data.ts`. -/
def generateCreativeWorkSchema (projects : List ProjectData)
    (authorName : List Char) : List Char :=
  jsonStringify2 (Json.arr (projects.map (projJson authorName)))

/-- The per-credential object built by `generateEducationSchema`,
including its assembled description sentence. -/
def eduJson (edu : EducationData) : Json :=
  Json.obj
    ([(lit "@context", Json.str (lit "https://schema.org")),
      (lit "@type", Json.str (lit "EducationalOccupationalCredential")),
      (lit "name", Json.str (edu.degree ++ lit " in " ++ edu.field)),
      (lit "recognizedBy", Json.obj
        [(lit "@type", Json.str (lit "Organization")),
         (lit "name", Json.str edu.institution)])]
     ++ (if truthyStr edu.degree then
           [(lit "educationalLevel", Json.str edu.degree),
            (lit "credentialCategory", Json.str edu.field)] else [])
     ++ (if truthyStr edu.startDate then
           [(lit "startDate", Json.str edu.startDate)] else [])
     ++ (if truthyStr edu.endDate then
           [(lit "endDate", Json.str edu.endDate)] else [])
     ++ (if truthy edu.gpa then
           [(lit "grade", Json.str (edu.gpa.getD []))] else [])
     ++ (let parts : List (List Char) :=
           (if truthyStr edu.degree && truthyStr edu.field then
             [edu.degree ++ lit " in " ++ edu.field] else [])
           ++ (if truthyStr edu.institution then
                [lit "from " ++ edu.institution] else [])
           ++ (if truthy edu.location then
                [lit "(" ++ edu.location.getD [] ++ lit ")"] else [])
         if 0 < parts.length then
           [(lit "description", Json.str (List.intercalate (lit " ") parts))]
         else []))

/-- Embedding of `generateEducationSchema` from `src/seo/structured-data.ts`. -/
def generateEducationSchema (education : List EducationData) : List Char :=
  jsonStringify2 (Json.arr (education.map eduJson))

/-- First-match field lookup in a JSON object. -/
def jsonLookup : List (List Char × Json) → List Char → Option Json
  | [], _ => none
  | (k, v) :: rest, key => if k = key then some v else jsonLookup rest key

/-- The emitted object carries `@context: "https://schema.org"` and the
given `@type`. -/
def hasSchemaTags (j : Json) (ty : List Char) : Prop :=
  ∃ fs, j = Json.obj fs ∧
    jsonLookup fs (lit "@context") = some (Json.str (lit "https://schema.org")) ∧
    jsonLookup fs (lit "@type") = some (Json.str ty)

theorem jsonLookup_cons_hit (k : List Char) (v : Json)
    (rest : List (List Char × Json)) :
    jsonLookup ((k, v) :: rest) k = some v := by
  simp [jsonLookup]

theorem jsonLookup_cons_miss {k key : List Char} (hne : ¬ k = key) (v : Json)
    (rest : List (List Char × Json)) :
    jsonLookup ((k, v) :: rest) key = jsonLookup rest key := by
  simp [jsonLookup, hne]

theorem hasSchemaTags_personJson (d : PersonData) (u : List Char) :
    hasSchemaTags (personJson d u) (lit "Person") := by
  refine ⟨_, rfl, ?_, ?_⟩
  · simp only [List.cons_append]
    rw [jsonLookup_cons_hit]
  · simp only [List.cons_append]
    rw [jsonLookup_cons_miss (by decide), jsonLookup_cons_hit]

theorem hasSchemaTags_expJson (e : ExperienceData) :
    hasSchemaTags (expJson e) (lit "WorkExperience") := by
  refine ⟨_, rfl, ?_, ?_⟩
  · simp only [List.cons_append]
    rw [jsonLookup_cons_hit]
  · simp only [List.cons_append]
    rw [jsonLookup_cons_miss (by decide), jsonLookup_cons_hit]

theorem hasSchemaTags_projJson (an : List Char) (p : ProjectData) :
    hasSchemaTags (projJson an p) (lit "CreativeWork") := by
  refine ⟨_, rfl, ?_, ?_⟩
  · simp only [List.cons_append]
    rw [jsonLookup_cons_hit]
  · simp only [List.cons_append]
    rw [jsonLookup_cons_miss (by decide), jsonLookup_cons_hit]

theorem hasSchemaTags_eduJson (e : EducationData) :
    hasSchemaTags (eduJson e) (lit "EducationalOccupationalCredential") := by
  refine ⟨_, rfl, ?_, ?_⟩
  · simp only [List.cons_append]
    rw [jsonLookup_cons_hit]
  · simp only [List.cons_append]
    rw [jsonLookup_cons_miss (by decide), jsonLookup_cons_hit]

theorem count_og_title_tags (config : OpenGraphTags) :
    countSub (lit "<meta property=\"og:title\"") (generateOpenGraphTags config) = 1 := by
  rw [countSub_generateOpenGraphTags (lit "<meta property=\"og:title\"") (lit "meta property=\"og:title\"") rfl config
    (by decide) (by decide) (by decide) (by decide) (by decide) (by decide)
    (by decide)]
  rw [    show countSub (lit "<meta property=\"og:title\"") (lit "<meta property=\"og:title\" content=\"") = 1 from by decide,
      show countSub (lit "<meta property=\"og:title\"") (lit "<meta property=\"og:description\" content=\"") = 0 from by decide,
      show countSub (lit "<meta property=\"og:title\"") (lit "<meta property=\"og:image\" content=\"") = 0 from by decide,
      show countSub (lit "<meta property=\"og:title\"") (lit "<meta property=\"og:type\" content=\"") = 0 from by decide,
      show countSub (lit "<meta property=\"og:title\"") (lit "<meta property=\"og:url\" content=\"") = 0 from by decide,
      show countSub (lit "<meta property=\"og:title\"") (lit "<meta property=\"og:site_name\" content=\"") = 0 from by decide,
      show countSub (lit "<meta property=\"og:title\"") (lit "\">") = 0 from by decide]
  by_cases hs : truthy config.ogSiteName <;> simp [hs]

theorem count_og_description_tags (config : OpenGraphTags) :
    countSub (lit "<meta property=\"og:description\"") (generateOpenGraphTags config) = 1 := by
  rw [countSub_generateOpenGraphTags (lit "<meta property=\"og:description\"") (lit "meta property=\"og:description\"") rfl config
    (by decide) (by decide) (by decide) (by decide) (by decide) (by decide)
    (by decide)]
  rw [    show countSub (lit "<meta property=\"og:description\"") (lit "<meta property=\"og:title\" content=\"") = 0 from by decide,
      show countSub (lit "<meta property=\"og:description\"") (lit "<meta property=\"og:description\" content=\"") = 1 from by decide,
      show countSub (lit "<meta property=\"og:description\"") (lit "<meta property=\"og:image\" content=\"") = 0 from by decide,
      show countSub (lit "<meta property=\"og:description\"") (lit "<meta property=\"og:type\" content=\"") = 0 from by decide,
      show countSub (lit "<meta property=\"og:description\"") (lit "<meta property=\"og:url\" content=\"") = 0 from by decide,
      show countSub (lit "<meta property=\"og:description\"") (lit "<meta property=\"og:site_name\" content=\"") = 0 from by decide,
      show countSub (lit "<meta property=\"og:description\"") (lit "\">") = 0 from by decide]
  by_cases hs : truthy config.ogSiteName <;> simp [hs]

theorem count_og_image_tags (config : OpenGraphTags) :
    countSub (lit "<meta property=\"og:image\"") (generateOpenGraphTags config) = 1 := by
  rw [countSub_generateOpenGraphTags (lit "<meta property=\"og:image\"") (lit "meta property=\"og:image\"") rfl config
    (by decide) (by decide) (by decide) (by decide) (by decide) (by decide)
    (by decide)]
  rw [    show countSub (lit "<meta property=\"og:image\"") (lit "<meta property=\"og:title\" content=\"") = 0 from by decide,
      show countSub (lit "<meta property=\"og:image\"") (lit "<meta property=\"og:description\" content=\"") = 0 from by decide,
      show countSub (lit "<meta property=\"og:image\"") (lit "<meta property=\"og:image\" content=\"") = 1 from by decide,
      show countSub (lit "<meta property=\"og:image\"") (lit "<meta property=\"og:type\" content=\"") = 0 from by decide,
      show countSub (lit "<meta property=\"og:image\"") (lit "<meta property=\"og:url\" content=\"") = 0 from by decide,
      show countSub (lit "<meta property=\"og:image\"") (lit "<meta property=\"og:site_name\" content=\"") = 0 from by decide,
      show countSub (lit "<meta property=\"og:image\"") (lit "\">") = 0 from by decide]
  by_cases hs : truthy config.ogSiteName <;> simp [hs]

theorem count_og_type_tags (config : OpenGraphTags) :
    countSub (lit "<meta property=\"og:type\"") (generateOpenGraphTags config) = 1 := by
  rw [countSub_generateOpenGraphTags (lit "<meta property=\"og:type\"") (lit "meta property=\"og:type\"") rfl config
    (by decide) (by decide) (by decide) (by decide) (by decide) (by decide)
    (by decide)]
  rw [    show countSub (lit "<meta property=\"og:type\"") (lit "<meta property=\"og:title\" content=\"") = 0 from by decide,
      show countSub (lit "<meta property=\"og:type\"") (lit "<meta property=\"og:description\" content=\"") = 0 from by decide,
      show countSub (lit "<meta property=\"og:type\"") (lit "<meta property=\"og:image\" content=\"") = 0 from by decide,
      show countSub (lit "<meta property=\"og:type\"") (lit "<meta property=\"og:type\" content=\"") = 1 from by decide,
      show countSub (lit "<meta property=\"og:type\"") (lit "<meta property=\"og:url\" content=\"") = 0 from by decide,
      show countSub (lit "<meta property=\"og:type\"") (lit "<meta property=\"og:site_name\" content=\"") = 0 from by decide,
      show countSub (lit "<meta property=\"og:type\"") (lit "\">") = 0 from by decide]
  by_cases hs : truthy config.ogSiteName <;> simp [hs]

theorem count_og_url_tags (config : OpenGraphTags) :
    countSub (lit "<meta property=\"og:url\"") (generateOpenGraphTags config) = 1 := by
  rw [countSub_generateOpenGraphTags (lit "<meta property=\"og:url\"") (lit "meta property=\"og:url\"") rfl config
    (by decide) (by decide) (by decide) (by decide) (by decide) (by decide)
    (by decide)]
  rw [    show countSub (lit "<meta property=\"og:url\"") (lit "<meta property=\"og:title\" content=\"") = 0 from by decide,
      show countSub (lit "<meta property=\"og:url\"") (lit "<meta property=\"og:description\" content=\"") = 0 from by decide,
      show countSub (lit "<meta property=\"og:url\"") (lit "<meta property=\"og:image\" content=\"") = 0 from by decide,
      show countSub (lit "<meta property=\"og:url\"") (lit "<meta property=\"og:type\" content=\"") = 0 from by decide,
      show countSub (lit "<meta property=\"og:url\"") (lit "<meta property=\"og:url\" content=\"") = 1 from by decide,
      show countSub (lit "<meta property=\"og:url\"") (lit "<meta property=\"og:site_name\" content=\"") = 0 from by decide,
      show countSub (lit "<meta property=\"og:url\"") (lit "\">") = 0 from by decide]
  by_cases hs : truthy config.ogSiteName <;> simp [hs]

theorem count_og_site_name_tags (config : OpenGraphTags) :
    countSub (lit "<meta property=\"og:site_name\"") (generateOpenGraphTags config) =
      (if truthy config.ogSiteName then 1 else 0) := by
  rw [countSub_generateOpenGraphTags (lit "<meta property=\"og:site_name\"") (lit "meta property=\"og:site_name\"") rfl config
    (by decide) (by decide) (by decide) (by decide) (by decide) (by decide)
    (by decide)]
  rw [    show countSub (lit "<meta property=\"og:site_name\"") (lit "<meta property=\"og:title\" content=\"") = 0 from by decide,
      show countSub (lit "<meta property=\"og:site_name\"") (lit "<meta property=\"og:description\" content=\"") = 0 from by decide,
      show countSub (lit "<meta property=\"og:site_name\"") (lit "<meta property=\"og:image\" content=\"") = 0 from by decide,
      show countSub (lit "<meta property=\"og:site_name\"") (lit "<meta property=\"og:type\" content=\"") = 0 from by decide,
      show countSub (lit "<meta property=\"og:site_name\"") (lit "<meta property=\"og:url\" content=\"") = 0 from by decide,
      show countSub (lit "<meta property=\"og:site_name\"") (lit "<meta property=\"og:site_name\" content=\"") = 1 from by decide,
      show countSub (lit "<meta property=\"og:site_name\"") (lit "\">") = 0 from by decide]
  by_cases hs : truthy config.ogSiteName <;> simp [hs]

theorem count_twitter_card_tags (config : TwitterCardTags) :
    countSub (lit "<meta name=\"twitter:card\"") (generateTwitterCardTags config) = 1 := by
  rw [countSub_generateTwitterCardTags (lit "<meta name=\"twitter:card\"") (lit "meta name=\"twitter:card\"") rfl config
    (by decide) (by decide) (by decide) (by decide) (by decide) (by decide)
    (by decide)]
  rw [    show countSub (lit "<meta name=\"twitter:card\"") (lit "<meta name=\"twitter:card\" content=\"") = 1 from by decide,
      show countSub (lit "<meta name=\"twitter:card\"") (lit "<meta name=\"twitter:title\" content=\"") = 0 from by decide,
      show countSub (lit "<meta name=\"twitter:card\"") (lit "<meta name=\"twitter:description\" content=\"") = 0 from by decide,
      show countSub (lit "<meta name=\"twitter:card\"") (lit "<meta name=\"twitter:image\" content=\"") = 0 from by decide,
      show countSub (lit "<meta name=\"twitter:card\"") (lit "<meta name=\"twitter:site\" content=\"") = 0 from by decide,
      show countSub (lit "<meta name=\"twitter:card\"") (lit "<meta name=\"twitter:creator\" content=\"") = 0 from by decide,
      show countSub (lit "<meta name=\"twitter:card\"") (lit "\">") = 0 from by decide]
  by_cases hs : truthy config.twitterSite <;>
    by_cases hc : truthy config.twitterCreator <;> simp [hs, hc]

theorem count_twitter_title_tags (config : TwitterCardTags) :
    countSub (lit "<meta name=\"twitter:title\"") (generateTwitterCardTags config) = 1 := by
  rw [countSub_generateTwitterCardTags (lit "<meta name=\"twitter:title\"") (lit "meta name=\"twitter:title\"") rfl config
    (by decide) (by decide) (by decide) (by decide) (by decide) (by decide)
    (by decide)]
  rw [    show countSub (lit "<meta name=\"twitter:title\"") (lit "<meta name=\"twitter:card\" content=\"") = 0 from by decide,
      show countSub (lit "<meta name=\"twitter:title\"") (lit "<meta name=\"twitter:title\" content=\"") = 1 from by decide,
      show countSub (lit "<meta name=\"twitter:title\"") (lit "<meta name=\"twitter:description\" content=\"") = 0 from by decide,
      show countSub (lit "<meta name=\"twitter:title\"") (lit "<meta name=\"twitter:image\" content=\"") = 0 from by decide,
      show countSub (lit "<meta name=\"twitter:title\"") (lit "<meta name=\"twitter:site\" content=\"") = 0 from by decide,
      show countSub (lit "<meta name=\"twitter:title\"") (lit "<meta name=\"twitter:creator\" content=\"") = 0 from by decide,
      show countSub (lit "<meta name=\"twitter:title\"") (lit "\">") = 0 from by decide]
  by_cases hs : truthy config.twitterSite <;>
    by_cases hc : truthy config.twitterCreator <;> simp [hs, hc]

theorem count_twitter_description_tags (config : TwitterCardTags) :
    countSub (lit "<meta name=\"twitter:description\"") (generateTwitterCardTags config) = 1 := by
  rw [countSub_generateTwitterCardTags (lit "<meta name=\"twitter:description\"") (lit "meta name=\"twitter:description\"") rfl config
    (by decide) (by decide) (by decide) (by decide) (by decide) (by decide)
    (by decide)]
  rw [    show countSub (lit "<meta name=\"twitter:description\"") (lit "<meta name=\"twitter:card\" content=\"") = 0 from by decide,
      show countSub (lit "<meta name=\"twitter:description\"") (lit "<meta name=\"twitter:title\" content=\"") = 0 from by decide,
      show countSub (lit "<meta name=\"twitter:description\"") (lit "<meta name=\"twitter:description\" content=\"") = 1 from by decide,
      show countSub (lit "<meta name=\"twitter:description\"") (lit "<meta name=\"twitter:image\" content=\"") = 0 from by decide,
      show countSub (lit "<meta name=\"twitter:description\"") (lit "<meta name=\"twitter:site\" content=\"") = 0 from by decide,
      show countSub (lit "<meta name=\"twitter:description\"") (lit "<meta name=\"twitter:creator\" content=\"") = 0 from by decide,
      show countSub (lit "<meta name=\"twitter:description\"") (lit "\">") = 0 from by decide]
  by_cases hs : truthy config.twitterSite <;>
    by_cases hc : truthy config.twitterCreator <;> simp [hs, hc]

theorem count_twitter_image_tags (config : TwitterCardTags) :
    countSub (lit "<meta name=\"twitter:image\"") (generateTwitterCardTags config) = 1 := by
  rw [countSub_generateTwitterCardTags (lit "<meta name=\"twitter:image\"") (lit "meta name=\"twitter:image\"") rfl config
    (by decide) (by decide) (by decide) (by decide) (by decide) (by decide)
    (by decide)]
  rw [    show countSub (lit "<meta name=\"twitter:image\"") (lit "<meta name=\"twitter:card\" content=\"") = 0 from by decide,
      show countSub (lit "<meta name=\"twitter:image\"") (lit "<meta name=\"twitter:title\" content=\"") = 0 from by decide,
      show countSub (lit "<meta name=\"twitter:image\"") (lit "<meta name=\"twitter:description\" content=\"") = 0 from by decide,
      show countSub (lit "<meta name=\"twitter:image\"") (lit "<meta name=\"twitter:image\" content=\"") = 1 from by decide,
      show countSub (lit "<meta name=\"twitter:image\"") (lit "<meta name=\"twitter:site\" content=\"") = 0 from by decide,
      show countSub (lit "<meta name=\"twitter:image\"") (lit "<meta name=\"twitter:creator\" content=\"") = 0 from by decide,
      show countSub (lit "<meta name=\"twitter:image\"") (lit "\">") = 0 from by decide]
  by_cases hs : truthy config.twitterSite <;>
    by_cases hc : truthy config.twitterCreator <;> simp [hs, hc]

theorem count_twitter_site_tags (config : TwitterCardTags) :
    countSub (lit "<meta name=\"twitter:site\"") (generateTwitterCardTags config) =
      (if truthy config.twitterSite then 1 else 0) := by
  rw [countSub_generateTwitterCardTags (lit "<meta name=\"twitter:site\"") (lit "meta name=\"twitter:site\"") rfl config
    (by decide) (by decide) (by decide) (by decide) (by decide) (by decide)
    (by decide)]
  rw [    show countSub (lit "<meta name=\"twitter:site\"") (lit "<meta name=\"twitter:card\" content=\"") = 0 from by decide,
      show countSub (lit "<meta name=\"twitter:site\"") (lit "<meta name=\"twitter:title\" content=\"") = 0 from by decide,
      show countSub (lit "<meta name=\"twitter:site\"") (lit "<meta name=\"twitter:description\" content=\"") = 0 from by decide,
      show countSub (lit "<meta name=\"twitter:site\"") (lit "<meta name=\"twitter:image\" content=\"") = 0 from by decide,
      show countSub (lit "<meta name=\"twitter:site\"") (lit "<meta name=\"twitter:site\" content=\"") = 1 from by decide,
      show countSub (lit "<meta name=\"twitter:site\"") (lit "<meta name=\"twitter:creator\" content=\"") = 0 from by decide,
      show countSub (lit "<meta name=\"twitter:site\"") (lit "\">") = 0 from by decide]
  by_cases hs : truthy config.twitterSite <;>
    by_cases hc : truthy config.twitterCreator <;> simp [hs, hc]

theorem count_twitter_creator_tags (config : TwitterCardTags) :
    countSub (lit "<meta name=\"twitter:creator\"") (generateTwitterCardTags config) =
      (if truthy config.twitterCreator then 1 else 0) := by
  rw [countSub_generateTwitterCardTags (lit "<meta name=\"twitter:creator\"") (lit "meta name=\"twitter:creator\"") rfl config
    (by decide) (by decide) (by decide) (by decide) (by decide) (by decide)
    (by decide)]
  rw [    show countSub (lit "<meta name=\"twitter:creator\"") (lit "<meta name=\"twitter:card\" content=\"") = 0 from by decide,
      show countSub (lit "<meta name=\"twitter:creator\"") (lit "<meta name=\"twitter:title\" content=\"") = 0 from by decide,
      show countSub (lit "<meta name=\"twitter:creator\"") (lit "<meta name=\"twitter:description\" content=\"") = 0 from by decide,
      show countSub (lit "<meta name=\"twitter:creator\"") (lit "<meta name=\"twitter:image\" content=\"") = 0 from by decide,
      show countSub (lit "<meta name=\"twitter:creator\"") (lit "<meta name=\"twitter:site\" content=\"") = 0 from by decide,
      show countSub (lit "<meta name=\"twitter:creator\"") (lit "<meta name=\"twitter:creator\" content=\"") = 1 from by decide,
      show countSub (lit "<meta name=\"twitter:creator\"") (lit "\">") = 0 from by decide]
  by_cases hs : truthy config.twitterSite <;>
    by_cases hc : truthy config.twitterCreator <;> simp [hs, hc]

theorem count_author_basicMetaTags (config : MetaTagsConfig) :
    countSub (lit "<meta name=\"author\"") (generateBasicMetaTags config) =
      (if truthy config.author then 1 else 0) := by
  rw [countSub_generateBasicMetaTags (lit "<meta name=\"author\"")
    (lit "meta name=\"author\"") rfl config (by decide) (by decide) (by decide)
    (by decide) (by decide) (by decide) (by decide) (by decide) (by decide),
    show countSub (lit "<meta name=\"author\"") (lit "<meta charset=\"UTF-8\">") = 0 from by decide,
    show countSub (lit "<meta name=\"author\"") (lit "<meta name=\"viewport\" content=\"width=device-width, initial-scale=1.0\">") = 0 from by decide,
    show countSub (lit "<meta name=\"author\"") (lit "<title>") = 0 from by decide,
    show countSub (lit "<meta name=\"author\"") (lit "</title>") = 0 from by decide,
    show countSub (lit "<meta name=\"author\"") (lit "<meta name=\"description\" content=\"") = 0 from by decide,
    show countSub (lit "<meta name=\"author\"") (lit "<meta name=\"keywords\" content=\"") = 0 from by decide,
    show countSub (lit "<meta name=\"author\"") (lit "<meta name=\"author\" content=\"") = 1 from by decide,
    show countSub (lit "<meta name=\"author\"") (lit "<link rel=\"canonical\" href=\"") = 0 from by decide,
    show countSub (lit "<meta name=\"author\"") (lit "\">") = 0 from by decide]
  rcases hk : config.keywords with _ | ks <;>
    simp only [hk] <;>
    by_cases ha : truthy config.author <;>
    simp [ha, ite_self]

/-- A sitemap entry whose `lastmod` value is the adversarial string
`<loc>`. -/
def badLastmodURL : SitemapURL :=
  { loc := lit "x", lastmod := lit "<loc>",
    changefreq := Changefreq.daily, priority := lit "0.5" }

/-- A well-formed sitemap entry for the home page. -/
def homeURL : SitemapURL :=
  { loc := lit "https://sandeepkommineni.me/", lastmod := lit "2026-01-01",
    changefreq := Changefreq.weekly, priority := lit "1" }

/-- A well-formed sitemap entry for the projects page. -/
def projectsURL : SitemapURL :=
  { loc := lit "https://sandeepkommineni.me/projects",
    lastmod := lit "2026-01-02",
    changefreq := Changefreq.monthly, priority := lit "0.8" }

/-- Claim C1 (counterexample): with a single entry whose `lastmod` string is
`<loc>`, the sitemap output contains two occurrences of `<loc>` although the
input array has length one, so the element counts do not equal the input
length for every `SitemapURL[]` input. -/
theorem c1_counterexample :
    countSub (lit "<loc>") (generateSitemap [badLastmodURL]) = 2 ∧
    ([badLastmodURL] : List SitemapURL).length = 1 := by
  constructor
  · decide
  · decide

/-- Claim C1 (amended): for every input whose `lastmod` and rendered
`priority` values contain no `<` character (true of every ISO-8601 date and
every number), the sitemap generated by `generateSitemap` contains exactly
`urls.length` occurrences of each of `<url>`, `<loc>`, `<lastmod>`,
`<changefreq>`, `<priority>` and `</url>`, exactly one `<urlset` and one
`</urlset>`, and starts with the XML declaration line. -/
theorem c1_sitemap_structure (urls : List SitemapURL)
    (hu : ∀ u ∈ urls, sitemapSafe u) :
    countSub (lit "<url>") (generateSitemap urls) = urls.length ∧
    countSub (lit "<loc>") (generateSitemap urls) = urls.length ∧
    countSub (lit "<lastmod>") (generateSitemap urls) = urls.length ∧
    countSub (lit "<changefreq>") (generateSitemap urls) = urls.length ∧
    countSub (lit "<priority>") (generateSitemap urls) = urls.length ∧
    countSub (lit "</url>") (generateSitemap urls) = urls.length ∧
    countSub (lit "<urlset") (generateSitemap urls) = 1 ∧
    countSub (lit "</urlset>") (generateSitemap urls) = 1 ∧
    lit "<?xml version=\"1.0\" encoding=\"UTF-8\"?>\n" <+: generateSitemap urls :=
  ⟨count_url_open_generateSitemap urls hu,
   count_loc_generateSitemap urls hu,
   count_lastmod_generateSitemap urls hu,
   count_changefreq_generateSitemap urls hu,
   count_priority_generateSitemap urls hu,
   count_url_close_generateSitemap urls hu,
   count_urlset_open_generateSitemap urls hu,
   count_urlset_close_generateSitemap urls hu,
   xmlDecl_isPre_generateSitemap urls⟩

/-- Claim C1 (witness): the amended theorem applied to a concrete two-entry
input with ISO-8601 dates and numeric priorities. -/
theorem c1_witness :
    (∀ u ∈ [homeURL, projectsURL], sitemapSafe u) ∧
    countSub (lit "<loc>") (generateSitemap [homeURL, projectsURL]) = 2 :=
  ⟨by decide, (c1_sitemap_structure [homeURL, projectsURL] (by decide)).2.1⟩

/-- Claim C2 (counterexample): with `maxLen = 2` (< 3) and a longer input,
`truncateDescription` returns "..." whose length 3 exceeds `maxLen`, so the
output-length bound does not hold for every `maxLen`. -/
theorem c2_counterexample :
    truncateDescription (lit "abcd") 2 = lit "..." ∧
    ¬ ((truncateDescription (lit "abcd") 2).length ≤ 2) := by
  constructor
  · decide
  · decide

/-- Claim C2 (amended): for every `maxLen ≥ 3` (which includes the default
160), `truncateDescription` returns the text unchanged when its length is
at most `maxLen` — in particular an input of exactly `maxLen` characters is
returned verbatim — and otherwise returns the first `maxLen - 3` characters
followed by "..." and has length exactly `maxLen`; the output length never
exceeds `maxLen`, and the 161-A example yields a 160-character string
ending in "...". -/
theorem c2_truncate (text : List Char) (maxLen : Nat) (h : 3 ≤ maxLen) :
    (text.length ≤ maxLen → truncateDescription text maxLen = text) ∧
    (maxLen < text.length →
      truncateDescription text maxLen = text.take (maxLen - 3) ++ lit "..." ∧
      (truncateDescription text maxLen).length = maxLen) ∧
    (truncateDescription text maxLen).length ≤ maxLen ∧
    truncateDescription (List.replicate 161 'A') 160 =
      List.replicate 157 'A' ++ lit "..." ∧
    (truncateDescription (List.replicate 161 'A') 160).length = 160 := by
  have hdots : (lit "...").length = 3 := by decide
  refine ⟨?_, ?_, ?_, by decide, by decide⟩
  · intro hle
    unfold truncateDescription
    rw [if_pos hle]
  · intro hgt
    have hne : ¬ text.length ≤ maxLen := Nat.not_le_of_lt hgt
    unfold truncateDescription
    rw [if_neg hne]
    refine ⟨rfl, ?_⟩
    rw [List.length_append, List.length_take, hdots]
    omega
  · unfold truncateDescription
    by_cases hle : text.length ≤ maxLen
    · rw [if_pos hle]
      exact hle
    · rw [if_neg hle]
      rw [List.length_append, List.length_take, hdots]
      omega

/-- Claim C2 (witness): the amended theorem applied at the default
`maxLen = 160` and the 161-character example input. -/
theorem c2_witness :
    (3 : Nat) ≤ 160 ∧
    truncateDescription (List.replicate 161 'A') 160 =
      List.replicate 157 'A' ++ lit "..." ∧
    (truncateDescription (List.replicate 161 'A') 160).length = 160 :=
  ⟨by decide, (c2_truncate (List.replicate 161 'A') 160 (by decide)).2.2.2.1,
   (c2_truncate (List.replicate 161 'A') 160 (by decide)).2.2.2.2⟩

/-- Claim C3 (counterexample): a single application of `escapeXml` to the
raw value `&amp;` produces `&amp;amp;`, so the output of one application
can contain such sequences. -/
theorem c3_counterexample :
    escapeXml (lit "&amp;") = lit "&amp;amp;" ∧
    countSub (lit "&amp;amp;") (escapeXml (lit "&amp;")) = 1 := by
  constructor
  · decide
  · decide

/-- Claim C3 (amended): `escapeXml` escapes each of the five special
characters exactly once — the number of `&amp;`, `&lt;`, `&gt;`, `&quot;`
and `&apos;` entities in the output equals, respectively, the number of
`&`, `<`, `>`, `"` and apostrophe characters in the input — and it never
re-escapes entities it produced itself: the output contains exactly as
many `&amp;amp;` sequences as the raw input contained `&amp;` (none when
the raw value was not already escaped). -/
theorem c3_escape_once (s : List Char) :
    countSub (lit "&amp;") (escapeXml s) = countChar '&' s ∧
    countSub (lit "&lt;") (escapeXml s) = countChar '<' s ∧
    countSub (lit "&gt;") (escapeXml s) = countChar '>' s ∧
    countSub (lit "&quot;") (escapeXml s) = countChar '"' s ∧
    countSub (lit "&apos;") (escapeXml s) = countChar aposC s ∧
    countSub (lit "&amp;amp;") (escapeXml s) = countSub (lit "&amp;") s := by
  rw [escapeXml_eq_escMapXml]
  exact ⟨countSub_amp_escMap s, countSub_lt_escMap s, countSub_gt_escMap s,
    countSub_quot_escMap s, countSub_apos_escMap s, countSub_ampamp_escMap s⟩

/-- A meta-tags configuration whose `author` field is present but equal to
the empty string. -/
def emptyAuthorConfig : MetaTagsConfig :=
  { title := lit "Title", description := lit "Description",
    canonicalUrl := lit "https://sandeepkommineni.me",
    keywords := none, author := some [] }

/-- Claim C4 (counterexample): with an explicitly empty-string `author`,
`generateBasicMetaTags` emits no author meta tag at all — the truthy check
`if (config.author)` treats the empty string like an absent field. -/
theorem c4_counterexample :
    emptyAuthorConfig.author = some [] ∧
    countSub (lit "<meta name=\"author\"")
      (generateBasicMetaTags emptyAuthorConfig) = 0 := by
  constructor
  · decide
  · decide

/-- Claim C4 (amended): `generateBasicMetaTags` emits exactly one
`<meta name="author">` tag when the `author` field is present and
non-empty, and none otherwise — an explicitly empty-string author is
treated exactly like an absent one and produces no tag. -/
theorem c4_author_tag (config : MetaTagsConfig) :
    countSub (lit "<meta name=\"author\"") (generateBasicMetaTags config) =
      (if truthy config.author then 1 else 0) :=
  count_author_basicMetaTags config

/-- Claim C5: `generateRobotsTxt` returns exactly the fixed directive text
followed by the sitemap URL, and is deterministic. -/
theorem c5_robots (s : List Char) :
    generateRobotsTxt s = lit "User-agent: *\nAllow: /\n\nSitemap: " ++ s ∧
    ∀ t : List Char, t = s → generateRobotsTxt t = generateRobotsTxt s :=
  ⟨rfl, fun _ ht => by rw [ht]⟩

/-- Claim C5 (witness): the exact output for the documented example input,
and determinism at a concrete input. -/
theorem c5_witness :
    generateRobotsTxt (lit "https://sandeepkommineni.me/sitemap.xml") =
      lit "User-agent: *\nAllow: /\n\nSitemap: https://sandeepkommineni.me/sitemap.xml" ∧
    generateRobotsTxt (lit "x") = generateRobotsTxt (lit "x") := by
  refine ⟨?_, (c5_robots (lit "x")).2 (lit "x") rfl⟩
  rw [(c5_robots (lit "https://sandeepkommineni.me/sitemap.xml")).1]
  decide

/-- Claim C6 (counterexample): the robots.txt body does not contain a blank
line between `User-agent: *` and `Allow: /` — the output differs from the
claimed doubly-blank-separated form. -/
theorem c6_counterexample :
    generateRobotsTxt (lit "x") ≠
      lit "User-agent: *\n\nAllow: /\n\nSitemap: x" := by
  decide

/-- Claim C6 (amended): the robots.txt body is the line `User-agent: *`,
then the line `Allow: /`, then a single blank line, then
`Sitemap: <sitemapUrl>` — a blank line separates only `Allow` from
`Sitemap`. -/
theorem c6_robots_lines (s : List Char) :
    generateRobotsTxt s = List.intercalate (lit "\n")
      [lit "User-agent: *", lit "Allow: /", [], lit "Sitemap: " ++ s] := by
  rw [intercalate_cons₂, intercalate_cons₂, intercalate_cons₂,
    intercalate_single]
  show lit "User-agent: *\nAllow: /\n\nSitemap: " ++ s = _
  have e : lit "User-agent: *\nAllow: /\n\nSitemap: " =
      lit "User-agent: *" ++ lit "\n" ++
        (lit "Allow: /" ++ lit "\n" ++ ([] ++ lit "\n" ++ lit "Sitemap: ")) := by
    decide
  rw [e]
  simp [List.append_assoc]

/-- Claim C7: every structured-data generator returns the serialization of
a JSON value (hence valid JSON); the three array-valued generators emit an
array whose length equals the input array's length while
`generatePersonSchema` emits a single object; and every emitted object
carries `@context: "https://schema.org"` and the fixed `@type` literal of
its generator (`Person`, `WorkExperience`, `CreativeWork`,
`EducationalOccupationalCredential`). -/
theorem c7_structured_data (d : PersonData) (u : List Char)
    (exps : List ExperienceData) (projs : List ProjectData)
    (an : List Char) (edus : List EducationData) :
    (∃ j, generatePersonSchema d u = jsonStringify2 j) ∧
    hasSchemaTags (personJson d u) (lit "Person") ∧
    (∃ l, generateWorkExperienceSchema exps = jsonStringify2 (Json.arr l) ∧
      l.length = exps.length ∧
      ∀ j ∈ l, hasSchemaTags j (lit "WorkExperience")) ∧
    (∃ l, generateCreativeWorkSchema projs an = jsonStringify2 (Json.arr l) ∧
      l.length = projs.length ∧
      ∀ j ∈ l, hasSchemaTags j (lit "CreativeWork")) ∧
    (∃ l, generateEducationSchema edus = jsonStringify2 (Json.arr l) ∧
      l.length = edus.length ∧
      ∀ j ∈ l, hasSchemaTags j (lit "EducationalOccupationalCredential")) := by
  refine ⟨⟨personJson d u, rfl⟩, hasSchemaTags_personJson d u,
    ⟨exps.map expJson, rfl, List.length_map _ _, ?_⟩,
    ⟨projs.map (projJson an), rfl, List.length_map _ _, ?_⟩,
    ⟨edus.map eduJson, rfl, List.length_map _ _, ?_⟩⟩
  · intro j hj
    rw [List.mem_map] at hj
    obtain ⟨e, _, rfl⟩ := hj
    exact hasSchemaTags_expJson e
  · intro j hj
    rw [List.mem_map] at hj
    obtain ⟨p, _, rfl⟩ := hj
    exact hasSchemaTags_projJson an p
  · intro j hj
    rw [List.mem_map] at hj
    obtain ⟨e, _, rfl⟩ := hj
    exact hasSchemaTags_eduJson e

/-- An Open Graph configuration whose `ogSiteName` is provided but equal to
the empty string. -/
def emptySiteNameOG : OpenGraphTags :=
  { ogTitle := lit "T", ogDescription := lit "D", ogImage := lit "I",
    ogType := lit "website", ogUrl := lit "U", ogSiteName := some [] }

/-- Claim C8 (counterexample): with `ogSiteName` provided as the empty
string, no `og:site_name` tag is emitted, so the tag does not appear
whenever the field is provided. -/
theorem c8_counterexample :
    emptySiteNameOG.ogSiteName.isSome = true ∧
    countSub (lit "<meta property=\"og:site_name\"")
      (generateOpenGraphTags emptySiteNameOG) = 0 := by
  constructor
  · decide
  · decide

/-- Claim C8 (amended): `generateOpenGraphTags` emits exactly one of each of
the five required `og:` tags, and an `og:site_name` tag exactly when
`ogSiteName` is provided as a non-empty string; `generateTwitterCardTags`
emits exactly one of each of the four required `twitter:` tags, and
`twitter:site` / `twitter:creator` tags exactly when the corresponding
field is provided non-empty, each decided independently (an empty-string
optional field counts as absent). -/
theorem c8_social_tags (cfg : OpenGraphTags) (tc : TwitterCardTags) :
    countSub (lit "<meta property=\"og:title\"")
      (generateOpenGraphTags cfg) = 1 ∧
    countSub (lit "<meta property=\"og:description\"")
      (generateOpenGraphTags cfg) = 1 ∧
    countSub (lit "<meta property=\"og:image\"")
      (generateOpenGraphTags cfg) = 1 ∧
    countSub (lit "<meta property=\"og:type\"")
      (generateOpenGraphTags cfg) = 1 ∧
    countSub (lit "<meta property=\"og:url\"")
      (generateOpenGraphTags cfg) = 1 ∧
    countSub (lit "<meta property=\"og:site_name\"")
      (generateOpenGraphTags cfg) = (if truthy cfg.ogSiteName then 1 else 0) ∧
    countSub (lit "<meta name=\"twitter:card\"")
      (generateTwitterCardTags tc) = 1 ∧
    countSub (lit "<meta name=\"twitter:title\"")
      (generateTwitterCardTags tc) = 1 ∧
    countSub (lit "<meta name=\"twitter:description\"")
      (generateTwitterCardTags tc) = 1 ∧
    countSub (lit "<meta name=\"twitter:image\"")
      (generateTwitterCardTags tc) = 1 ∧
    countSub (lit "<meta name=\"twitter:site\"")
      (generateTwitterCardTags tc) = (if truthy tc.twitterSite then 1 else 0) ∧
    countSub (lit "<meta name=\"twitter:creator\"")
      (generateTwitterCardTags tc) =
        (if truthy tc.twitterCreator then 1 else 0) :=
  ⟨count_og_title_tags cfg, count_og_description_tags cfg,
   count_og_image_tags cfg, count_og_type_tags cfg, count_og_url_tags cfg,
   count_og_site_name_tags cfg, count_twitter_card_tags tc,
   count_twitter_title_tags tc, count_twitter_description_tags tc,
   count_twitter_image_tags tc, count_twitter_site_tags tc,
   count_twitter_creator_tags tc⟩

/-- Claim C9: `getEnv` resolves every key by taking the first non-empty
value among the caller-supplied bindings, the process environment and the
hardcoded default, in that order, treating an empty string exactly like an
absent value; the configuration builders built on it resolve each of their
keys the same way. -/
theorem c9_config_resolution (key : EnvKey) (dflt : List Char)
    (env procEnv : Option EnvMap) :
    getEnv key dflt env procEnv =
      firstNonEmptySpec [envLookup env key, envLookup procEnv key] dflt ∧
    (createSEOConfig env procEnv).site.url =
      firstNonEmptySpec [envLookup env .SITE_URL, envLookup procEnv .SITE_URL]
        (lit "https://sandeepkommineni.me") ∧
    (createSEOConfig env procEnv).site.domain =
      firstNonEmptySpec
        [envLookup env .SITE_DOMAIN, envLookup procEnv .SITE_DOMAIN]
        (lit "sandeepkommineni.me") ∧
    (createSEOConfig env procEnv).analytics.googleAnalyticsId =
      firstNonEmptySpec
        [envLookup env .GA_MEASUREMENT_ID, envLookup procEnv .GA_MEASUREMENT_ID]
        [] ∧
    (createSEOConfig env procEnv).analytics.googleSearchConsoleId =
      firstNonEmptySpec
        [envLookup env .GSC_VERIFICATION_ID,
         envLookup procEnv .GSC_VERIFICATION_ID] [] ∧
    (createSEOConfig env procEnv).environment =
      (if firstNonEmptySpec
          [envLookup env .ENVIRONMENT, envLookup procEnv .ENVIRONMENT]
          (lit "production") == lit "production"
       then lit "production" else lit "development") := by
  refine ⟨getEnv_eq_firstNonEmptySpec key dflt env procEnv, ?_, ?_, ?_, ?_, ?_⟩
  · show (createSiteConfig env procEnv).url = _
    unfold createSiteConfig
    exact getEnv_eq_firstNonEmptySpec _ _ env procEnv
  · show (createSiteConfig env procEnv).domain = _
    unfold createSiteConfig
    exact getEnv_eq_firstNonEmptySpec _ _ env procEnv
  · show (createAnalyticsConfig env procEnv).googleAnalyticsId = _
    unfold createAnalyticsConfig
    exact getEnv_eq_firstNonEmptySpec _ _ env procEnv
  · show (createAnalyticsConfig env procEnv).googleSearchConsoleId = _
    unfold createAnalyticsConfig
    exact getEnv_eq_firstNonEmptySpec _ _ env procEnv
  · show (if isProduction env procEnv then lit "production"
        else lit "development") = _
    unfold isProduction
    rw [getEnv_eq_firstNonEmptySpec _ _ env procEnv]

/-- A sitemap entry whose `lastmod` value contains a spurious url-block
opening. -/
def badUrlTagURL : SitemapURL :=
  { loc := lit "x", lastmod := lit "  <url>",
    changefreq := Changefreq.daily, priority := lit "0.5" }

/-- Claim C10 (counterexample): with a single entry whose `lastmod` value
contains `  <url>`, the output contains two `<url>` openings in document
order although the input has one entry, so the i-th `<url>` block of the
document is not in general the block generated from `urls[i]`. -/
theorem c10_counterexample :
    countSub (lit "<url>") (generateSitemap [badUrlTagURL]) = 2 ∧
    ([badUrlTagURL] : List SitemapURL).length = 1 := by
  constructor
  · decide
  · decide

/-- Claim C10 (amended): for inputs whose `lastmod` and rendered `priority`
values contain no `<` character, `generateSitemap` is an order-preserving
element-wise map: the output is the fixed header, the newline-joined
per-entry blocks `urlEntry urls[0], urlEntry urls[1], ...` in input order,
and the fixed footer; for every index `i` the output splits around
`urlEntry urls[i]` with exactly `i` earlier `<url>` openings, and the
total number of `<url>` openings equals the input length. -/
theorem c10_sitemap_map (urls : List SitemapURL)
    (hu : ∀ u ∈ urls, sitemapSafe u) :
    generateSitemap urls =
      sitemapHeader ++ List.intercalate (lit "\n") (urls.map urlEntry) ++
        sitemapFooter ∧
    (∀ i, ∀ h : i < urls.length, ∃ pre post,
      generateSitemap urls = pre ++ urlEntry (urls.get ⟨i, h⟩) ++ post ∧
      countSub (lit "<url>") pre = i) ∧
    countSub (lit "<url>") (generateSitemap urls) = urls.length :=
  ⟨rfl, fun i h => sitemap_nth_block urls hu i h,
   count_url_open_generateSitemap urls hu⟩

/-- Claim C10 (witness): the amended theorem applied to a concrete
two-entry input, extracting the split around the second entry's block. -/
theorem c10_witness :
    (∀ u ∈ [homeURL, projectsURL], sitemapSafe u) ∧
    (1 < ([homeURL, projectsURL] : List SitemapURL).length) ∧
    (∃ pre post,
      generateSitemap [homeURL, projectsURL] =
        pre ++ urlEntry projectsURL ++ post ∧
      countSub (lit "<url>") pre = 1) :=
  ⟨by decide, by decide,
   (c10_sitemap_map [homeURL, projectsURL] (by decide)).2.1 1 (by decide)⟩
